import Mathlib

/-!
Verification of the identity / session / claim subsystem of
`oracle-universe-api` against its natural-language specification.

The definitions below are shallow embeddings of the TypeScript source:
* `src/lib/auth.ts`            — `DEFAULT_SALT`, `createJWT`, `verifyJWT`, `verifySIWE`
* `src/lib/env.ts` (merkle)    — `extractIssueNumber`, `oraclesToAssignments`,
                                 `toLeafTuple`, `getMerkleRoot`
* `src/unnamed/part_019`       — `POST /humans/verify` (SIWE sign-in, timestamp-age
                                 freshness, bot-wallet guard)
* `src/routes/auth/siwe.ts`    — `POST /humans/verify` (round-id distance variant)
* `src/unnamed/part_022`       — `POST /verify-identity` (claim flow, step 8 re-claim
                                 with bot-wallet guard)
* `src/unnamed/part_021`       — `POST /verify-identity` (claim flow, step 7 re-claim
                                 without the guard)

Cryptographic primitives (HMAC-SHA256, keccak, ECDSA recovery), base64/JSON
serialisation and the external collaborators (record store queries are embedded as
list operations; GitHub fetches, the Chainlink contract, `viem`'s
`parseSiweMessage`/`recoverMessageAddress`) enter the model as explicit function
parameters: the theorems quantify over them, and the route logic — guard order,
truthiness tests, comparisons, mutations — is translated literally from the source.
JavaScript `||`-chains on strings are modelled by explicit truthiness tests
(`""`, `undefined` falsy); `x.toLowerCase()` by `String.toLower`.
-/

/-- JSON-ish values appearing in JWT payloads: strings and integers
(the payloads built by this code contain nothing else). -/
inductive JVal where
  | jstr (s : String)
  | jnum (n : Int)
deriving DecidableEq, Repr

/-- A JS object as an insertion-ordered association list with unique keys,
as produced by object literals and spreads in the source. -/
abbrev JObj := List (String × JVal)

/-- JS object-spread/assignment semantics: overwriting an existing key keeps its
position, a new key is appended (models `{...payload, iat: ..., exp: ...}`). -/
def setKey : JObj → String → JVal → JObj
  | [], k, v => [(k, v)]
  | (k', v') :: rest, k, v =>
    if k' = k then (k', v) :: rest else (k', v') :: setKey rest k v

/-- JS property lookup (`payload.exp`): first binding of the key, if any. -/
def getKey : JObj → String → Option JVal
  | [], _ => none
  | (k', v') :: rest, k => if k' = k then some v' else getKey rest k

/-- JS truthiness of a `JVal`: `""` and `0` are falsy. -/
def jsTruthy : JVal → Bool
  | .jstr s => !(s == "")
  | .jnum n => !(n == 0)

/-- JS `v < m` for a payload value against an integer (`payload.exp < now`):
numbers compare directly, strings are coerced (a non-numeric string yields
`NaN` and the comparison is false). -/
def jsNumLt (v : JVal) (m : Int) : Bool :=
  match v with
  | .jnum n => n < m
  | .jstr s =>
    match s.toInt? with
    | some n => n < m
    | none => false

/-- JS truthiness of an optional string (`undefined` and `""` falsy). -/
def optTruthy : Option String → Bool
  | none => false
  | some s => !(s == "")

/-- JS truthiness of a string. -/
def strTruthy (s : String) : Bool := !(s == "")

/-- `x.toLowerCase()`: character-wise lowering (kernel-reducible form of
`String.toLower`, which it agrees with on the ASCII data this code handles). -/
def jsToLower (s : String) : String := ⟨s.data.map Char.toLower⟩

/-- `BigInt(s)` on a decimal string: `0` for the empty string, the decimal
value for a digit string, a throw (`none`) otherwise. -/
def jsBigInt (s : String) : Option Int :=
  if s.data.isEmpty then some 0
  else if s.data.all Char.isDigit then
    some (s.data.foldl (fun n c => n * 10 + (c.toNat - '0'.toNat)) 0)
  else none

/-- `src/lib/auth.ts` line 10: the module-level fallback secret. -/
def DEFAULT_SALT : String := "oracle-universe-dev-salt-change-in-production"

/-- A JWT as its three dot-joined segments (`header.payload.signature`).
Base64url segments never contain `'.'`, so the dot-join/split of the source is
a bijection onto this triple. -/
structure Token where
  headerB64 : String
  payloadB64 : String
  sigB64 : String
deriving DecidableEq, Repr

/-- The constant JWT header `{ alg: 'HS256', typ: 'JWT' }` of `createJWT`. -/
def jwtHeaderObj : JObj := [("alg", .jstr "HS256"), ("typ", .jstr "JWT")]

/-- `createJWT` (src/lib/auth.ts lines 28-58).  `enc` stands for
`btoa(JSON.stringify(·))` with base64url cleanup, `mac` for HMAC-SHA256 keyed
by the secret followed by base64url; both are injected as parameters.  The
payload is spread and `iat = now`, `exp = now + 86400*7` are written into it
before encoding. -/
def createJWT (enc : JObj → String) (mac : String → String → String)
    (payload : JObj) (secret : String) (now : Int) : Token :=
  let payloadFull := setKey (setKey payload "iat" (.jnum now)) "exp" (.jnum (now + 86400 * 7))
  let headerB64 := enc jwtHeaderObj
  let payloadB64 := enc payloadFull
  let sigB64 := mac secret (headerB64 ++ "." ++ payloadB64)
  ⟨headerB64, payloadB64, sigB64⟩

/-- The payload object actually encoded by `createJWT` (claims plus injected
`iat`/`exp`). -/
def jwtPayloadFull (payload : JObj) (now : Int) : JObj :=
  setKey (setKey payload "iat" (.jnum now)) "exp" (.jnum (now + 86400 * 7))

/-- `verifyJWT` (src/lib/auth.ts lines 93-121).  `dec` stands for
`JSON.parse(atob(·))` (returning `none` when it throws), `mac` as in
`createJWT`; `crypto.subtle.verify` recomputes the HMAC over
`header ++ "." ++ payload` and compares it with the decoded signature segment.
The destructuring guard rejects empty segments; after the signature check the
payload is decoded and `payload.exp && payload.exp < now` rejects expiry. -/
def verifyJWT (dec : String → Option JObj) (mac : String → String → String)
    (t : Token) (secret : String) (now : Int) : Option JObj :=
  if t.headerB64 == "" || t.payloadB64 == "" || t.sigB64 == "" then none
  else if !(mac secret (t.headerB64 ++ "." ++ t.payloadB64) == t.sigB64) then none
  else
    match dec t.payloadB64 with
    | none => none
    | some payload =>
      match getKey payload "exp" with
      | some v => if jsTruthy v && jsNumLt v now then none else some payload
      | none => some payload

/-- The optional SIWE fields `parseSiweMessage` returns (viem yields a partial
record; date fields are modelled as epoch seconds). -/
structure SiweParsed where
  address : Option String
  nonce : Option String
  expirationTime : Option Int
  notBefore : Option Int

/-- `verifySIWE` (src/lib/auth.ts lines 64-87).  `parse` stands for viem's
`parseSiweMessage`, `recover` for `recoverMessageAddress` (`none` when it
throws; the source's `try/catch` converts the throw into `null`).  Checks in
source order: truthy address and nonce, `expirationTime` in the past,
`notBefore` in the future, recovery, case-insensitive address comparison;
success returns the lowercased recovered wallet and the nonce. -/
def verifySIWE (parse : String → SiweParsed) (recover : String → String → Option String)
    (now : Int) (message signature : String) : Option (String × String) :=
  let siwe := parse message
  if !(optTruthy siwe.address) || !(optTruthy siwe.nonce) then none
  else if (match siwe.expirationTime with | some t => decide (t < now) | none => false) then none
  else if (match siwe.notBefore with | some t => decide (now < t) | none => false) then none
  else
    match recover message signature with
    | none => none
    | some recovered =>
      if !(jsToLower recovered == jsToLower (siwe.address.getD "")) then none
      else some (jsToLower recovered, siwe.nonce.getD "")

/-! ## Record store data model

`HumanRecord`/`OracleRecord` mirror the PocketBase collections (`src/lib/pb-types`,
part_003): optional string fields model PocketBase's empty-able text columns, with
`""`/absent both falsy in the JS route code.  A `Store` is the record store's
contents; `getList(page 1, perPage n, filter)` is embedded as `take n` of the
filtered list. -/

structure HumanRecord where
  hid : Nat
  wallet_address : String
  github_username : Option String
  display_name : Option String
deriving DecidableEq, Repr

structure OracleRecord where
  oid : Nat
  name : String
  birth_issue : Option String
  owner_wallet : String
  bot_wallet : Option String
  approved : Bool
  wallet_verified : Bool
  verification_issue : Option String
deriving DecidableEq, Repr

structure Store where
  humans : List HumanRecord
  oracles : List OracleRecord
deriving DecidableEq, Repr

/-! ## Family Merkle builder (`src/lib/env.ts`, merkle part) -/

/-- `Assignment` (src/lib/env.ts): `{ bot, oracle, issue }`. -/
structure Assignment where
  bot : String
  oracle : String
  issue : Nat
deriving DecidableEq, Repr

/-- `toLeafTuple` (src/lib/env.ts): `[a.bot.toLowerCase(), a.oracle, BigInt(a.issue)]`. -/
def toLeafTuple (a : Assignment) : String × String × Nat :=
  (jsToLower a.bot, a.oracle, a.issue)

/-- Decimal digit run to its `parseInt(_, 10)` value. -/
def digitsToNat (ds : List Char) : Nat :=
  ds.foldl (fun n c => n * 10 + (c.toNat - '0'.toNat)) 0

/-- Drop a literal character sequence from the front, or fail. -/
def dropLit : List Char → List Char → Option (List Char)
  | [], l => some l
  | _ :: _, [] => none
  | p :: ps, c :: cs => if p = c then dropLit ps cs else none

/-- Leftmost-match scan of the regex `\/issues\/(\d+)`: at each position try the
literal `"/issues/"` followed by at least one digit (greedy run); on failure
advance one character, exactly as the JS regex engine does. -/
def scanIssuesNum : List Char → Option Nat
  | [] => none
  | c :: rest =>
    match dropLit "/issues/".toList (c :: rest) with
    | some tail =>
      let ds := tail.takeWhile Char.isDigit
      if ds.isEmpty then scanIssuesNum rest else some (digitsToNat ds)
    | none => scanIssuesNum rest

/-- `extractIssueNumber` (src/lib/env.ts lines 56-59):
`birthIssue.match(/\/issues\/(\d+)/)` then `parseInt(match[1], 10)`, `null` when
there is no match. -/
def extractIssueNumber (birthIssue : String) : Option Nat :=
  scanIssuesNum birthIssue.toList

/-- The assignment built from one oracle record inside `oraclesToAssignments`. -/
def oracleToAssignment (o : OracleRecord) : Assignment :=
  { bot := o.bot_wallet.getD ""
    oracle := o.birth_issue.getD ""
    issue := (extractIssueNumber (o.birth_issue.getD "")).getD 0 }

/-- `oraclesToAssignments` (src/lib/env.ts lines 62-72): filter records with
truthy `bot_wallet` and `birth_issue`, map to assignments with
`extractIssueNumber(birth_issue) ?? 0`, keep `issue > 0`, then
`.sort((a, b) => a.issue - b.issue)` — a stable ascending sort by `issue`
(ES2019 `Array.prototype.sort` is stable), embedded as insertion sort. -/
def oraclesToAssignments (oracles : List OracleRecord) : List Assignment :=
  List.insertionSort (fun a b => a.issue ≤ b.issue)
    (((oracles.filter (fun o => optTruthy o.bot_wallet && optTruthy o.birth_issue)).map
        oracleToAssignment).filter (fun a => 0 < a.issue))

/-- Modelled from the spec: the spec describes the sequence number as obtained by
a "regex on a trailing `/<integer>`" of the birth-identifier; this definition
follows those words (a digit run at the very end of the string, preceded by `/`),
to be compared with the source's `extractIssueNumber`. -/
def extractTrailingInt (s : String) : Option Nat :=
  let rev := s.toList.reverse
  let ds := rev.takeWhile Char.isDigit
  if ds.isEmpty then none
  else
    match rev.drop ds.length with
    | '/' :: _ => some (digitsToNat ds.reverse)
    | _ => none

/-- OpenZeppelin `hashPair`: `keccak256(concat([a, b].sort(compareBytes)))`;
`pairH` stands for keccak-of-concatenation, the byte sort becomes taking the
ordered pair. -/
def hashPairOf (pairH : Nat → Nat → Nat) (a b : Nat) : Nat :=
  if a ≤ b then pairH a b else pairH b a

/-- OpenZeppelin `makeMerkleTree` inner loop: fill parent nodes at indices
`i, i-1, …, 0`, where node `i` hashes its children at `2i+1` and `2i+2`
(children indices are larger and already written). -/
def fillParents (pairH : Nat → Nat → Nat) : Nat → Array Nat → Array Nat
  | 0, tree =>
    tree.setD 0 (hashPairOf pairH (tree.getD 1 0) (tree.getD 2 0))
  | j + 1, tree =>
    fillParents pairH j
      (tree.setD (j + 1)
        (hashPairOf pairH (tree.getD (2 * (j + 1) + 1) 0) (tree.getD (2 * (j + 1) + 2) 0)))

/-- OpenZeppelin `makeMerkleTree` (the library `StandardMerkleTree.of` builds on):
an array of `2n - 1` nodes, the `n` leaves placed at the back in reverse order,
parents filled from index `2n - 2 - n` down to `0`; throws on an empty leaf list
(`none` here).  The root is node `0`. -/
def makeMerkleTree (pairH : Nat → Nat → Nat) (leaves : List Nat) : Option (Array Nat) :=
  match leaves with
  | [] => none
  | _ =>
    let n := leaves.length
    let len := 2 * n - 1
    let withLeaves := (List.range n).foldl
      (fun t i => t.setD (len - 1 - i) (leaves.getD i 0)) (Array.mkArray len 0)
    some (if n = 1 then withLeaves else fillParents pairH (len - 1 - n) withLeaves)

/-- `StandardMerkleTree.of(leaves, LEAF_ENCODING).root`: hash each leaf tuple
(`leafH` stands for the double-keccak ABI leaf hash), sort the hashes
(`compareBytes` ascending, embedded as `≤` on the abstract hash values),
build the tree and read node `0`. -/
def standardTreeRoot (leafH : String × String × Nat → Nat) (pairH : Nat → Nat → Nat)
    (assignments : List Assignment) : Option Nat :=
  (makeMerkleTree pairH
      (List.insertionSort (· ≤ ·) (assignments.map (fun a => leafH (toLeafTuple a))))).map
    (fun t => t.getD 0 0)

/-- `getMerkleRoot` (src/lib/env.ts lines 49-53): `''` for an empty assignment
list (modelled as `none`), otherwise the `StandardMerkleTree` root. -/
def getMerkleRoot (leafH : String × String × Nat → Nat) (pairH : Nat → Nat → Nat)
    (assignments : List Assignment) : Option Nat :=
  if assignments.length = 0 then none
  else standardTreeRoot leafH pairH assignments

/-! ## Freshness checks (the three variants present in the source) -/

/-- part_019 lines 45-54: `ageSec = now - roundData.timestamp; if (ageSec > 3900)`
reject — the sign-in flow's round-timestamp-age bound (65 minutes). -/
def freshRejectSiwe19 (now ts : Int) : Bool := decide (now - ts > 3900)

/-- part_022 step 3c (lines 123-137): `ageSec = now - roundData.timestamp;
if (ageSec > 3600)` reject — the claim flow's round-timestamp-age bound (1 hour). -/
def freshRejectIdentity22 (now ts : Int) : Bool := decide (now - ts > 3600)

/-- src/routes/auth/siwe.ts lines 45-54:
`if (currentRoundBigInt - nonceBigInt > 10n)` reject — the round-id-distance
variant of the sign-in freshness check (last 10 rounds). -/
def freshRejectSiweTs (currentRound nonce : Int) : Bool := decide (currentRound - nonce > 10)

/-! ## Sign-in route `POST /humans/verify` (part_019) -/

/-- Pre-store failure outcomes of the sign-in handlers. -/
inductive SigninErr where
  /-- 400 `Missing message or signature` -/
  | missingFields
  /-- 400 `Invalid SIWE message` -/
  | invalidMessage
  /-- 401 `Signature does not match address` -/
  | sigMismatch
  /-- 401 `Nonce (roundId) is too old` -/
  | nonceExpired (age : Int)
  /-- 500 (thrown error or upstream failure) -/
  | serverError
deriving DecidableEq, Repr

/-- The distinguishable outcomes of the sign-in handlers. -/
inductive SigninResult where
  | err (e : SigninErr)
  /-- 403 `This wallet is registered as an oracle bot wallet …` -/
  | walletRoleConflict (oracleName : String)
  /-- 200 with the issued token -/
  | success (created : Bool) (token : Token) (wallet : String)
deriving DecidableEq, Repr

/-- Next PocketBase-style id for a created record (the concrete id value is
opaque to the routes; freshness is what matters). -/
def freshHumanId (st : Store) : Nat :=
  (st.humans.foldl (fun m h => max m h.hid) 0) + 1

/-- The created human record of part_019:
`{ wallet_address, display_name: Human-${wallet.slice(2, 8)} }`. -/
def newHuman19 (st : Store) (wallet : String) : HumanRecord :=
  { hid := freshHumanId st
    wallet_address := wallet
    github_username := none
    display_name := some ("Human-" ++ ((wallet.drop 2).take 6)) }

/-- Steps 1-5 of `POST /humans/verify` (part_019): missing-field check, SIWE
parse, signature recovery (a throw is caught as a 500), address comparison,
round-timestamp freshness (3900 s).  `roundData` stands for
`getChainlinkRoundData` returning the round's timestamp (`none` = network or
decoding throw).  The early returns of the source become the `Except` chain;
`.ok` carries the lowercased verified wallet. -/
def signin19Checks (parse : String → SiweParsed)
    (recover : String → String → Option String) (roundData : String → Option Int)
    (now : Int) (message signature : String) : Except SigninErr String :=
  if !(strTruthy message) || !(strTruthy signature) then .error .missingFields
  else if !(optTruthy (parse message).address) || !(optTruthy (parse message).nonce) then
    .error .invalidMessage
  else
    match recover message signature with
    | none => .error .serverError
    | some recovered =>
      if !(jsToLower recovered == jsToLower ((parse message).address.getD "")) then
        .error .sigMismatch
      else
        match roundData ((parse message).nonce.getD "") with
        | none => .error .serverError
        | some ts =>
          if freshRejectSiwe19 now ts then .error (.nonceExpired (now - ts))
          else .ok (jsToLower recovered)

/-- The store-touching phase of part_019 after a verified wallet: bot-wallet
guard, find-or-create human, token issuance with `DEFAULT_SALT`.  The
create-conflict retry re-reads an existing row; in this sequential model a
create never conflicts, so the retry branch is unreachable and omitted. -/
def signin19Store (enc : JObj → String) (mac : String → String → String) (now : Int)
    (st : Store) (walletAddress : String) : SigninResult × Store :=
  match (st.oracles.filter (fun o => o.bot_wallet == some walletAddress)).take 1 with
  | o :: _ => (.walletRoleConflict o.name, st)
  | [] =>
    let token := createJWT enc mac
      [("sub", .jstr walletAddress), ("type", .jstr "human")] DEFAULT_SALT now
    match (st.humans.filter (fun h => h.wallet_address == walletAddress)).take 1 with
    | _ :: _ => (.success false token walletAddress, st)
    | [] =>
      (.success true token walletAddress,
        { st with humans := st.humans ++ [newHuman19 st walletAddress] })

/-- `POST /humans/verify` (part_019, `authSiweRoutes`): checks then store phase. -/
def humansVerifyHandler19 (parse : String → SiweParsed)
    (recover : String → String → Option String) (roundData : String → Option Int)
    (enc : JObj → String) (mac : String → String → String) (now : Int)
    (st : Store) (message signature : String) : SigninResult × Store :=
  match signin19Checks parse recover roundData now message signature with
  | .error e => (.err e, st)
  | .ok walletAddress => signin19Store enc mac now st walletAddress

theorem humansVerifyHandler19_error {parse recover roundData now message signature e}
    (enc : JObj → String) (mac : String → String → String) (st : Store)
    (h : signin19Checks parse recover roundData now message signature = .error e) :
    humansVerifyHandler19 parse recover roundData enc mac now st message signature
      = (.err e, st) := by
  unfold humansVerifyHandler19
  rw [h]

theorem humansVerifyHandler19_ok {parse recover roundData now message signature wallet}
    (enc : JObj → String) (mac : String → String → String) (st : Store)
    (h : signin19Checks parse recover roundData now message signature = .ok wallet) :
    humansVerifyHandler19 parse recover roundData enc mac now st message signature
      = signin19Store enc mac now st wallet := by
  unfold humansVerifyHandler19
  rw [h]

theorem signin19Store_guard {st : Store} {walletAddress : String} {o rest}
    (enc : JObj → String) (mac : String → String → String) (now : Int)
    (h : (st.oracles.filter (fun x => x.bot_wallet == some walletAddress)).take 1
      = o :: rest) :
    signin19Store enc mac now st walletAddress = (.walletRoleConflict o.name, st) := by
  unfold signin19Store
  rw [h]

theorem signin19Store_found {st : Store} {walletAddress : String} {hh hrest}
    (enc : JObj → String) (mac : String → String → String) (now : Int)
    (hguard : (st.oracles.filter (fun x => x.bot_wallet == some walletAddress)).take 1 = [])
    (hfind : (st.humans.filter (fun x => x.wallet_address == walletAddress)).take 1
      = hh :: hrest) :
    signin19Store enc mac now st walletAddress
      = (.success false (createJWT enc mac
          [("sub", .jstr walletAddress), ("type", .jstr "human")] DEFAULT_SALT now)
          walletAddress, st) := by
  unfold signin19Store
  rw [hguard, hfind]

theorem signin19Store_create {st : Store} {walletAddress : String}
    (enc : JObj → String) (mac : String → String → String) (now : Int)
    (hguard : (st.oracles.filter (fun x => x.bot_wallet == some walletAddress)).take 1 = [])
    (hfind : (st.humans.filter (fun x => x.wallet_address == walletAddress)).take 1 = []) :
    signin19Store enc mac now st walletAddress
      = (.success true (createJWT enc mac
          [("sub", .jstr walletAddress), ("type", .jstr "human")] DEFAULT_SALT now)
          walletAddress,
          { st with humans := st.humans ++ [newHuman19 st walletAddress] }) := by
  unfold signin19Store
  rw [hguard, hfind]

/-- Steps 1-5 of `POST /humans/verify` (src/routes/auth/siwe.ts, the
round-id-distance variant).  `latestRound` stands for
`getChainlinkBtcPrice().roundId` (`none` = network throw caught as a 500); the
nonce is converted with `BigInt(nonce)` (a non-numeric nonce throws, modelled
by `jsBigInt`); freshness compares round ids: reject when the nonce round
is more than 10 behind the latest. -/
def signinTsChecks (parse : String → SiweParsed)
    (recover : String → String → Option String) (latestRound : Option Int)
    (message signature : String) : Except SigninErr String :=
  if !(strTruthy message) || !(strTruthy signature) then .error .missingFields
  else if !(optTruthy (parse message).address) || !(optTruthy (parse message).nonce) then
    .error .invalidMessage
  else
    match recover message signature with
    | none => .error .serverError
    | some recovered =>
      if !(jsToLower recovered == jsToLower ((parse message).address.getD "")) then
        .error .sigMismatch
      else
        match latestRound, jsBigInt ((parse message).nonce.getD "") with
        | none, _ => .error .serverError
        | some _, none => .error .serverError
        | some currentRound, some nonceInt =>
          if freshRejectSiweTs currentRound nonceInt then
            .error (.nonceExpired (currentRound - nonceInt))
          else .ok (jsToLower recovered)

/-- `POST /humans/verify` (src/routes/auth/siwe.ts): checks then find-or-create
human and token issuance with `DEFAULT_SALT`.  This variant has NO bot-wallet
guard. -/
def humansVerifyHandlerTs (parse : String → SiweParsed)
    (recover : String → String → Option String) (latestRound : Option Int)
    (enc : JObj → String) (mac : String → String → String) (now : Int)
    (st : Store) (message signature : String) : SigninResult × Store :=
  match signinTsChecks parse recover latestRound message signature with
  | .error e => (.err e, st)
  | .ok walletAddress =>
    let token := createJWT enc mac
      [("sub", .jstr walletAddress), ("type", .jstr "human")] DEFAULT_SALT now
    match (st.humans.filter (fun h => h.wallet_address == walletAddress)).take 1 with
    | _ :: _ => (.success false token walletAddress, st)
    | [] =>
      (.success true token walletAddress,
        { st with humans := st.humans ++ [newHuman19 st walletAddress] })

/-! ## Claim route `POST /verify-identity` (part_022; re-claim also in part_021)

The model starts after the two GitHub fetches: the fetched issue documents and the
results of the body-extraction `||`-chains of step 3 (JSON block / labelled text /
bare regex) are the fields of `ClaimCtx`, over which the theorems quantify.  All
decisions and mutations from step 3b on are translated literally. -/

structure ClaimCtx where
  /-- the verification issue's URL (request field, used in the oracle upsert) -/
  verificationIssueUrl : String
  /-- `verifyIssue.user?.login` -/
  githubUsername : Option String
  /-- result of `bodyData.wallet || **Wallet:** label || first 0x-pattern` -/
  walletFromBody : Option String
  /-- request `birthIssueUrl` -/
  birthIssueReq : Option String
  /-- result of `bodyData.birth_issue || **Birth Issue:** label` -/
  birthIssueFromBody : Option String
  /-- request `oracleName` -/
  oracleNameReq : Option String
  /-- `bodyData.oracle_name` -/
  oracleNameFromBody : Option String
  /-- result of `bodyData.bot_wallet || Bot Wallet label || "bot_wallet" JSON pattern` -/
  botWalletRaw : Option String
  /-- `bodyData.signature` -/
  bodySignature : Option String
  /-- `recoverMessageAddress` over the reconstructed embedded message
  (`none` = throw → 400 `Invalid signature in verification issue`) -/
  embeddedRecovered : Option String
  /-- `bodyData.chainlink_round` -/
  chainlinkRound : Option String
  /-- `birthIssue.user?.login` -/
  birthAuthor : Option String
  /-- the birth-issue-title fallback name (title parsing chain result, after `.trim()`) -/
  birthTitleName : Option String
  /-- request `siweMessage` -/
  siweMessage : Option String
  /-- request `siweSignature` -/
  siweSignature : Option String

/-- Error outcomes of `/verify-identity` before any mutation (part_022). -/
inductive IdentityErr where
  /-- 400 `No wallet address found in verification issue body` -/
  | noWallet
  /-- 400 `No birth issue URL found …` -/
  | noBirthIssue
  /-- 400 `Invalid signature in verification issue` (recovery threw) -/
  | invalidEmbeddedSignature
  /-- 401 `Signature does not match wallet address` -/
  | embeddedSigMismatch
  /-- 400 `Missing chainlink_round in verification payload` -/
  | missingChainlinkRound
  /-- 500 `getChainlinkRoundData` threw -/
  | oracleUnavailable
  /-- 401 `Verification signature expired (older than 1 hour)` -/
  | nonceExpired (age : Int)
  /-- 401 `GitHub username mismatch` -/
  | authorMismatch
  /-- 400 `Bot wallet already assigned to another oracle` -/
  | duplicateBotWallet (existingName : String)
deriving DecidableEq, Repr

/-- Outcomes of `/verify-identity`. -/
inductive IdentityResult where
  | err (e : IdentityErr)
  /-- 500 after the upserts: the re-claim SIWE recovery threw -/
  | serverErrorAfterUpsert
  /-- 200 with the issued token -/
  | success (token : Token) (githubUsername : Option String) (oracleName : String)
deriving DecidableEq, Repr

/-- The values carried out of the pre-mutation checks. -/
structure PreOut where
  walletAddress : String
  resolvedBirthIssue : String
  botWallet : Option String
  finalOracleName : String
deriving DecidableEq, Repr

/-- JS `a || b` on optional strings: first truthy operand. -/
def orTruthy (a b : Option String) : Option String :=
  if optTruthy a then a else if optTruthy b then b else none

/-- part_022 steps 3-5 (pre-store checks, in source order): wallet extraction and
lowercasing, birth-issue resolution (request field first), oracle-name resolution,
bot-wallet lowercasing, embedded-signature verification, required
`chainlink_round` with timestamp-age freshness (3600 s), author match. -/
def identityPreChecks (ctx : ClaimCtx) (roundData : String → Option Int)
    (now : Int) : Except IdentityErr PreOut :=
  if !(optTruthy ctx.walletFromBody) then .error .noWallet
  else
    let walletAddress := jsToLower (ctx.walletFromBody.getD "")
    let resolvedBirth := orTruthy ctx.birthIssueReq ctx.birthIssueFromBody
    if !(optTruthy resolvedBirth) then .error .noBirthIssue
    else
      let resolvedOracleName := orTruthy ctx.oracleNameReq ctx.oracleNameFromBody
      let botWallet := (orTruthy ctx.botWalletRaw none).map jsToLower
      let embedded : Except IdentityErr Unit :=
        if optTruthy ctx.bodySignature then
          match ctx.embeddedRecovered with
          | none => .error .invalidEmbeddedSignature
          | some r =>
            if !(jsToLower r == walletAddress) then .error .embeddedSigMismatch else .ok ()
        else .ok ()
      match embedded with
      | .error e => .error e
      | .ok _ =>
        if !(optTruthy ctx.chainlinkRound) then .error .missingChainlinkRound
        else
          match roundData (ctx.chainlinkRound.getD "") with
          | none => .error .oracleUnavailable
          | some ts =>
            if freshRejectIdentity22 now ts then .error (.nonceExpired (now - ts))
            else
              if !((ctx.githubUsername.map jsToLower) == (ctx.birthAuthor.map jsToLower))
              then .error .authorMismatch
              else
                .ok { walletAddress
                      resolvedBirthIssue := resolvedBirth.getD ""
                      botWallet
                      finalOracleName :=
                        (orTruthy resolvedOracleName
                          (orTruthy ctx.birthTitleName (some "Oracle"))).getD "Oracle" }

/-- part_022 duplicate-bot-wallet check (lines 167-177): if a bot wallet was
extracted, fetch up to 10 oracles with that `bot_wallet` and reject when one of
them has a different `birth_issue`. -/
def dupBotWalletCheck (st : Store) (botWallet : Option String)
    (resolvedBirthIssue : String) : Option OracleRecord :=
  match botWallet with
  | none => none
  | some bw =>
    if bw == "" then none
    else
      ((st.oracles.filter (fun o => o.bot_wallet == some bw)).take 10).find?
        (fun o => !(o.birth_issue == some resolvedBirthIssue))

/-- part_022 step 6: find the human by wallet; update `github_username` and
`display_name` if found (PocketBase drops `undefined` fields from the PATCH
body, so a missing username leaves the record unchanged), else create. -/
def upsertHuman22 (st : Store) (walletAddress : String)
    (githubUsername : Option String) : Store :=
  match (st.humans.filter (fun h => h.wallet_address == walletAddress)).take 1 with
  | h :: _ =>
    { st with humans := st.humans.map (fun x =>
        if x.hid == h.hid then
          match githubUsername with
          | some u => { x with github_username := some u, display_name := some u }
          | none => x
        else x) }
  | [] =>
    { st with humans := st.humans ++
        [{ hid := freshHumanId st
           wallet_address := walletAddress
           github_username := githubUsername
           display_name := githubUsername }] }

/-- Next oracle id, as for humans. -/
def freshOracleId (st : Store) : Nat :=
  (st.oracles.foldl (fun m o => max m o.oid) 0) + 1

/-- part_022 step 7: find the oracle by `birth_issue`; update
`owner_wallet`/`name`/`approved`/`verification_issue` (plus
`bot_wallet`/`wallet_verified := false` when a bot wallet was extracted —
the conditional spread), else create it with those fields. -/
def upsertOracle22 (st : Store) (pre : PreOut) (verificationIssueUrl : String) : Store :=
  match (st.oracles.filter (fun o => o.birth_issue == some pre.resolvedBirthIssue)).take 1 with
  | o :: _ =>
    { st with oracles := st.oracles.map (fun x =>
        if x.oid == o.oid then
          match pre.botWallet with
          | some bw =>
            { x with owner_wallet := pre.walletAddress, name := pre.finalOracleName
                     approved := true, verification_issue := some verificationIssueUrl
                     bot_wallet := some bw, wallet_verified := false }
          | none =>
            { x with owner_wallet := pre.walletAddress, name := pre.finalOracleName
                     approved := true, verification_issue := some verificationIssueUrl }
        else x) }
  | [] =>
    { st with oracles := st.oracles ++
        [{ oid := freshOracleId st
           name := pre.finalOracleName
           birth_issue := some pre.resolvedBirthIssue
           owner_wallet := pre.walletAddress
           bot_wallet := pre.botWallet
           approved := true
           wallet_verified := false
           verification_issue := some verificationIssueUrl }] }

/-- part_022 step 8, first half (also part_021 step 7): `walletVerified` is set
only when both SIWE fields are supplied, the message parses with truthy address
and nonce, and the recovered signer equals the claim wallet; a recovery throw
propagates to the route's catch (`.error`). -/
def computeWalletVerified (parse : String → SiweParsed)
    (recover : String → String → Option String) (walletAddress : String)
    (siweMessage siweSignature : Option String) : Except Unit Bool :=
  if optTruthy siweMessage && optTruthy siweSignature then
    let parsed := parse (siweMessage.getD "")
    if optTruthy parsed.address && optTruthy parsed.nonce then
      match recover (siweMessage.getD "") (siweSignature.getD "") with
      | none => .error ()
      | some r => .ok (jsToLower r == walletAddress)
    else .ok false
  else .ok false

/-- The "old wallets" collected by the re-claim blocks: wallets of up to 200
humans sharing the `github_username`, truthy and different from the new wallet. -/
def reclaimOldWallets (st : Store) (walletAddress : String)
    (githubUsername : Option String) : List String :=
  (((st.humans.filter (fun h => h.github_username == githubUsername)).take 200).map
    (fun h => h.wallet_address)).filter (fun w => strTruthy w && !(w == walletAddress))

/-- part_022 step 8 re-claim block (lines 235-276): when `walletVerified` and a
truthy username, first the bot-wallet guard (skip everything when the new wallet
is some oracle's `bot_wallet`); otherwise collect the old wallets and, when
non-empty, reassign `owner_wallet` of up to 200 oracles owned by an old wallet. -/
def reclaimStep22 (st : Store) (walletAddress : String)
    (githubUsername : Option String) (walletVerified : Bool) : Store :=
  if walletVerified && optTruthy githubUsername then
    if !((st.oracles.filter (fun o => o.bot_wallet == some walletAddress)).take 1).isEmpty
    then st
    else if (reclaimOldWallets st walletAddress githubUsername).isEmpty then st
    else
      { st with oracles := st.oracles.map (fun o =>
          if ((st.oracles.filter (fun x =>
              (reclaimOldWallets st walletAddress githubUsername).contains
                x.owner_wallet)).take 200).any (fun x => x.oid == o.oid) then
            { o with owner_wallet := walletAddress }
          else o) }
  else st

/-- part_021 step 7 re-claim block (lines 185-226): identical to part_022's
except there is NO bot-wallet guard on the new wallet (and the block also
requires the cached admin token to be truthy). -/
def reclaimStep21 (st : Store) (walletAddress : String)
    (githubUsername : Option String) (walletVerified : Bool) (adminToken : Bool) : Store :=
  if walletVerified && adminToken && optTruthy githubUsername then
    if (reclaimOldWallets st walletAddress githubUsername).isEmpty then st
    else
      { st with oracles := st.oracles.map (fun o =>
          if ((st.oracles.filter (fun x =>
              (reclaimOldWallets st walletAddress githubUsername).contains
                x.owner_wallet)).take 200).any (fun x => x.oid == o.oid) then
            { o with owner_wallet := walletAddress }
          else o) }
  else st

/-- The final phase of part_022 (step 8 on the already-upserted store `st2`):
`walletVerified` computation (a throw there is caught AFTER the upserts have
run), the re-claim block, and token issuance with `DEFAULT_SALT`. -/
def identityFinish22 (ctx : ClaimCtx) (parse : String → SiweParsed)
    (recover : String → String → Option String) (enc : JObj → String)
    (mac : String → String → String) (now : Int) (st2 : Store) (pre : PreOut) :
    IdentityResult × Store :=
  match computeWalletVerified parse recover pre.walletAddress
      ctx.siweMessage ctx.siweSignature with
  | .error _ => (.serverErrorAfterUpsert, st2)
  | .ok wv =>
    (.success
      (createJWT enc mac
        [("sub", .jstr pre.walletAddress), ("type", .jstr "human")] DEFAULT_SALT now)
      ctx.githubUsername pre.finalOracleName,
      reclaimStep22 st2 pre.walletAddress ctx.githubUsername wv)

/-- The store-touching phase of part_022: duplicate-bot-wallet rejection before
any mutation, then the human and oracle upserts feeding the final phase. -/
def identityStore22 (ctx : ClaimCtx) (parse : String → SiweParsed)
    (recover : String → String → Option String) (enc : JObj → String)
    (mac : String → String → String) (now : Int) (st : Store) (pre : PreOut) :
    IdentityResult × Store :=
  match dupBotWalletCheck st pre.botWallet pre.resolvedBirthIssue with
  | some existing => (.err (.duplicateBotWallet existing.name), st)
  | none =>
    identityFinish22 ctx parse recover enc mac now
      (upsertOracle22 (upsertHuman22 st pre.walletAddress ctx.githubUsername)
        pre ctx.verificationIssueUrl) pre

/-- `POST /verify-identity` (part_022), from step 3 on: pre-checks, then the
store phase. -/
def verifyIdentityHandler22 (ctx : ClaimCtx) (roundData : String → Option Int)
    (parse : String → SiweParsed) (recover : String → String → Option String)
    (enc : JObj → String) (mac : String → String → String) (now : Int)
    (st : Store) : IdentityResult × Store :=
  match identityPreChecks ctx roundData now with
  | .error e => (.err e, st)
  | .ok pre => identityStore22 ctx parse recover enc mac now st pre

theorem verifyIdentityHandler22_preErr {ctx roundData now e}
    (parse : String → SiweParsed) (recover : String → String → Option String)
    (enc : JObj → String) (mac : String → String → String) (st : Store)
    (h : identityPreChecks ctx roundData now = .error e) :
    verifyIdentityHandler22 ctx roundData parse recover enc mac now st = (.err e, st) := by
  unfold verifyIdentityHandler22
  rw [h]

theorem verifyIdentityHandler22_ok {ctx roundData now pre}
    (parse : String → SiweParsed) (recover : String → String → Option String)
    (enc : JObj → String) (mac : String → String → String) (st : Store)
    (h : identityPreChecks ctx roundData now = .ok pre) :
    verifyIdentityHandler22 ctx roundData parse recover enc mac now st
      = identityStore22 ctx parse recover enc mac now st pre := by
  unfold verifyIdentityHandler22
  rw [h]

theorem identityStore22_dup {st : Store} {pre : PreOut} {ex}
    (ctx : ClaimCtx) (parse : String → SiweParsed)
    (recover : String → String → Option String) (enc : JObj → String)
    (mac : String → String → String) (now : Int)
    (h : dupBotWalletCheck st pre.botWallet pre.resolvedBirthIssue = some ex) :
    identityStore22 ctx parse recover enc mac now st pre
      = (.err (.duplicateBotWallet ex.name), st) := by
  unfold identityStore22
  rw [h]

theorem identityStore22_nodup {st : Store} {pre : PreOut}
    (ctx : ClaimCtx) (parse : String → SiweParsed)
    (recover : String → String → Option String) (enc : JObj → String)
    (mac : String → String → String) (now : Int)
    (h : dupBotWalletCheck st pre.botWallet pre.resolvedBirthIssue = none) :
    identityStore22 ctx parse recover enc mac now st pre
      = identityFinish22 ctx parse recover enc mac now
          (upsertOracle22 (upsertHuman22 st pre.walletAddress ctx.githubUsername)
            pre ctx.verificationIssueUrl) pre := by
  unfold identityStore22
  rw [h]

theorem identityFinish22_throw {ctx parse recover pre} {st2 : Store}
    (enc : JObj → String) (mac : String → String → String) (now : Int)
    (h : computeWalletVerified parse recover pre.walletAddress
      ctx.siweMessage ctx.siweSignature = .error ()) :
    identityFinish22 ctx parse recover enc mac now st2 pre
      = (.serverErrorAfterUpsert, st2) := by
  unfold identityFinish22
  rw [h]

theorem identityFinish22_ok {ctx parse recover pre wv} {st2 : Store}
    (enc : JObj → String) (mac : String → String → String) (now : Int)
    (h : computeWalletVerified parse recover pre.walletAddress
      ctx.siweMessage ctx.siweSignature = .ok wv) :
    identityFinish22 ctx parse recover enc mac now st2 pre
      = (.success
          (createJWT enc mac
            [("sub", .jstr pre.walletAddress), ("type", .jstr "human")] DEFAULT_SALT now)
          ctx.githubUsername pre.finalOracleName,
          reclaimStep22 st2 pre.walletAddress ctx.githubUsername wv) := by
  unfold identityFinish22
  rw [h]

/-! ## Helper lemmas -/

theorem getKey_setKey_same (o : JObj) (k : String) (v : JVal) :
    getKey (setKey o k v) k = some v := by
  induction o with
  | nil => simp [setKey, getKey]
  | cons hd tl ih =>
    obtain ⟨k', v'⟩ := hd
    by_cases h : k' = k
    · simp [setKey, getKey, h]
    · simp [setKey, getKey, h, ih]

theorem getKey_setKey_ne (o : JObj) (k k' : String) (v : JVal) (h : k ≠ k') :
    getKey (setKey o k v) k' = getKey o k' := by
  induction o with
  | nil => simp [setKey, getKey, h]
  | cons hd tl ih =>
    obtain ⟨k₀, v₀⟩ := hd
    by_cases hk : k₀ = k
    · subst hk
      simp [setKey, getKey, h]
    · simp [setKey, hk, getKey, ih]

theorem take_one_ne_nil {α : Type} {l : List α} {a : α} (h : a ∈ l) : l.take 1 ≠ [] := by
  cases l with
  | nil => cases h
  | cons x xs => simp [List.take]

/-! ## C4 — issue/verify round-trip and expiry -/

/-- The claim as frozen is refuted below (`c4_counterexample`) at `exp = 0`:
`payload.exp && payload.exp < now` skips the expiry check for a falsy `exp`.
C4 amended: a token produced by `createJWT` (which injects `iat = now` and
`exp = now + 7 days`) verifies successfully with the same secret immediately,
and a properly signed token whose `exp` is a NONZERO timestamp in the past
fails verification. -/
theorem c4_issue_verify (enc : JObj → String) (mac : String → String → String)
    (dec : String → Option JObj) (payload : JObj) (secret : String) (now : Int)
    (hhdr : enc jwtHeaderObj ≠ "")
    (hpay : enc (jwtPayloadFull payload now) ≠ "")
    (hsig : mac secret (enc jwtHeaderObj ++ "." ++ enc (jwtPayloadFull payload now)) ≠ "")
    (hdec : dec (enc (jwtPayloadFull payload now)) = some (jwtPayloadFull payload now)) :
    (verifyJWT dec mac (createJWT enc mac payload secret now) secret now
        = some (jwtPayloadFull payload now)
      ∧ getKey (jwtPayloadFull payload now) "iat" = some (.jnum now)
      ∧ getKey (jwtPayloadFull payload now) "exp" = some (.jnum (now + 86400 * 7)))
    ∧ (∀ (t : Token) (pl : JObj) (e : Int),
        mac secret (t.headerB64 ++ "." ++ t.payloadB64) = t.sigB64 →
        dec t.payloadB64 = some pl → getKey pl "exp" = some (.jnum e) →
        e ≠ 0 → e < now → verifyJWT dec mac t secret now = none) := by
  constructor
  · have hexp : getKey (jwtPayloadFull payload now) "exp" = some (.jnum (now + 86400 * 7)) :=
      getKey_setKey_same _ _ _
    have hiat : getKey (jwtPayloadFull payload now) "iat" = some (.jnum now) := by
      unfold jwtPayloadFull
      rw [getKey_setKey_ne _ _ _ _ (by decide)]
      exact getKey_setKey_same _ _ _
    refine ⟨?_, hiat, hexp⟩
    have hnum : jsNumLt (.jnum (now + 86400 * 7)) now = false := by
      simp only [jsNumLt, decide_eq_false_iff_not]
      omega
    show verifyJWT dec mac ⟨enc jwtHeaderObj, enc (jwtPayloadFull payload now),
      mac secret (enc jwtHeaderObj ++ "." ++ enc (jwtPayloadFull payload now))⟩ secret now = _
    unfold verifyJWT
    simp [hhdr, hpay, hsig, hdec, hexp, hnum]
    intro _
    simp only [jsNumLt, decide_eq_false_iff_not]
    omega
  · intro t pl e hmac hdecp hexp he hlt
    have h1 : jsTruthy (.jnum e) = true := by simp [jsTruthy, he]
    have h2 : jsNumLt (.jnum e) now = true := by simp [jsNumLt, hlt]
    unfold verifyJWT
    by_cases hseg : (t.headerB64 == "" || t.payloadB64 == "" || t.sigB64 == "") = true
    · simp [hseg]
    · simp [hseg, hmac, hdecp, hexp, h1, h2]

def c4wEnc : JObj → String := fun _ => "P"
def c4wMac : String → String → String := fun _ _ => "S"
def c4wDec : String → Option JObj := fun _ => some (jwtPayloadFull [("sub", .jstr "0xa")] 100)

/-- Witness: a concrete issued token verifies and carries the injected claims. -/
theorem c4_issue_verify_witness :
    verifyJWT c4wDec c4wMac (createJWT c4wEnc c4wMac [("sub", .jstr "0xa")] "sec" 100) "sec" 100
      = some (jwtPayloadFull [("sub", .jstr "0xa")] 100) :=
  (c4_issue_verify c4wEnc c4wMac c4wDec [("sub", .jstr "0xa")] "sec" 100
    (by decide) (by decide) (by decide) rfl).1.1

def c4cDec : String → Option JObj := fun _ => some [("exp", .jnum 0)]
def c4cMac : String → String → String := fun _ _ => "S"

/-- Counterexample to C4 as frozen: a properly signed token whose `expires_at`
is `0` — a time in the past of `now = 5` — verifies successfully instead of
failing, because `payload.exp && …` treats `0` as falsy. -/
theorem c4_counterexample :
    (0 : Int) < 5 ∧
    verifyJWT c4cDec c4cMac ⟨"H", "P", "S"⟩ "sec" 5 = some [("exp", .jnum 0)] := by
  constructor
  · decide
  · rfl

/-! ## C10 — falsy `exp` never expires -/

/-- C10: a token whose signature verifies and whose decoded payload lacks `exp`
(or has a falsy one, e.g. `0`) is accepted at every `now`. -/
theorem c10_falsy_exp_never_expires (dec : String → Option JObj)
    (mac : String → String → String) (t : Token) (secret : String) (payload : JObj)
    (h1 : t.headerB64 ≠ "") (h2 : t.payloadB64 ≠ "") (h3 : t.sigB64 ≠ "")
    (hmac : mac secret (t.headerB64 ++ "." ++ t.payloadB64) = t.sigB64)
    (hdec : dec t.payloadB64 = some payload)
    (hexp : getKey payload "exp" = none ∨
      ∃ v, getKey payload "exp" = some v ∧ jsTruthy v = false) :
    ∀ now : Int, verifyJWT dec mac t secret now = some payload := by
  intro now
  unfold verifyJWT
  rcases hexp with h | ⟨v, hv, hfalsy⟩
  · simp [h1, h2, h3, hmac, hdec, h]
  · simp [h1, h2, h3, hmac, hdec, hv, hfalsy]

def c10wDec : String → Option JObj := fun _ => some [("sub", .jstr "w"), ("exp", .jnum 0)]
def c10wMac : String → String → String := fun _ _ => "S"

/-- Witness: a signed token with `exp = 0` verifies at a large `now`. -/
theorem c10_falsy_exp_witness :
    verifyJWT c10wDec c10wMac ⟨"H", "P", "S"⟩ "sec" 1000000000
      = some [("sub", .jstr "w"), ("exp", .jnum 0)] :=
  c10_falsy_exp_never_expires c10wDec c10wMac ⟨"H", "P", "S"⟩ "sec"
    [("sub", .jstr "w"), ("exp", .jnum 0)]
    (by decide) (by decide) (by decide) rfl rfl
    (Or.inr ⟨.jnum 0, rfl, by decide⟩) 1000000000

/-! ## C6 — `verifySIWE` return characterization -/

/-- The recovery-and-comparison tail of `verifySIWE`, named so the
characterization below can be stated and reused. -/
def siweTail (A : String) (Nn : Option String) (rec : Option String) :
    Option (String × String) :=
  match rec with
  | none => none
  | some recovered =>
    if !(jsToLower recovered == jsToLower A) then none
    else some (jsToLower recovered, Nn.getD "")

theorem siweTail_none (A : String) (Nn : Option String) :
    siweTail A Nn none = none := rfl

theorem siweTail_some (A : String) (Nn : Option String) (r : String) :
    siweTail A Nn (some r) =
      if !(jsToLower r == jsToLower A) then none else some (jsToLower r, Nn.getD "") := rfl

/-- `siweTail` is `none` exactly when no recovered signer equals the claimed
address case-insensitively; success returns the lowercased recovered wallet
with the nonce. -/
theorem siweTail_characterization (A : String) (Nn : Option String) (rec : Option String)
    (hN : optTruthy Nn = true) :
    (siweTail A Nn rec = none ↔ ¬∃ r, rec = some r ∧ jsToLower r = jsToLower A)
    ∧ (∀ w n, siweTail A Nn rec = some (w, n) →
        ∃ r, rec = some r ∧ w = jsToLower r ∧ Nn = some n ∧ n ≠ "") := by
  rcases rec with _ | r
  · rw [siweTail_none]
    refine ⟨iff_of_true rfl ?_, fun w n h => Option.noConfusion h⟩
    rintro ⟨r, hr, -⟩
    exact Option.noConfusion hr
  · rw [siweTail_some]
    by_cases hC : jsToLower r = jsToLower A
    · rw [if_neg (by simp [hC])]
      refine ⟨iff_of_false (by simp) (fun hno => hno ⟨r, rfl, hC⟩), ?_⟩
      intro w n h
      rw [Option.some.injEq, Prod.mk.injEq] at h
      obtain ⟨hw, hn⟩ := h
      rcases Nn with _ | ns
      · simp [optTruthy] at hN
      · rw [Option.getD_some] at hn
        simp only [optTruthy, Bool.not_eq_true', beq_eq_false_iff_ne] at hN
        exact ⟨r, rfl, hw.symm, congrArg some hn, hn ▸ hN⟩
    · rw [if_pos (by simp [hC])]
      refine ⟨iff_of_true rfl ?_, fun w n h => Option.noConfusion h⟩
      rintro ⟨r', hr', heq⟩
      rw [Option.some.injEq] at hr'
      subst hr'
      exact hC heq

/-- C6: `verifySIWE` is total (the source wraps everything in `try/catch`, so it
never throws), returns `none` exactly when the structured message is malformed
(missing/falsy address or nonce — an unparsable message yields no such fields),
when its own expiration/not-before bounds reject `now`, or when no recovered
signer case-insensitively equal to the claimed address exists (mismatch or
recovery failure), and on success returns the lowercased recovered wallet with
the message's nonce. -/
theorem c6_verifySIWE_characterization (parse : String → SiweParsed)
    (recover : String → String → Option String) (now : Int) (m s : String) :
    (verifySIWE parse recover now m s = none ↔
      (optTruthy (parse m).address = false ∨ optTruthy (parse m).nonce = false)
      ∨ ((∃ t, (parse m).expirationTime = some t ∧ t < now)
          ∨ (∃ t, (parse m).notBefore = some t ∧ now < t))
      ∨ ¬∃ r, recover m s = some r ∧ jsToLower r = jsToLower ((parse m).address.getD ""))
    ∧ (∀ w n, verifySIWE parse recover now m s = some (w, n) →
        ∃ r, recover m s = some r ∧ w = jsToLower r ∧ (parse m).nonce = some n ∧ n ≠ "") := by
  have hsiwe : verifySIWE parse recover now m s =
      (if !(optTruthy (parse m).address) || !(optTruthy (parse m).nonce) then none
      else if (match (parse m).expirationTime with
        | some t => decide (t < now) | none => false) then none
      else if (match (parse m).notBefore with
        | some t => decide (now < t) | none => false) then none
      else siweTail ((parse m).address.getD "") (parse m).nonce (recover m s)) := rfl
  rw [hsiwe]
  cases hA : optTruthy (parse m).address with
  | false =>
    rw [if_pos (by simp [hA])]
    exact ⟨iff_of_true rfl (Or.inl (Or.inl rfl)), fun w n h => Option.noConfusion h⟩
  | true =>
  cases hN : optTruthy (parse m).nonce with
  | false =>
    rw [if_pos (by simp [hN])]
    exact ⟨iff_of_true rfl (Or.inl (Or.inr rfl)), fun w n h => Option.noConfusion h⟩
  | true =>
  rw [if_neg (by simp [hA, hN])]
  have tailChar := siweTail_characterization ((parse m).address.getD "")
    (parse m).nonce (recover m s) hN
  rcases hE : (parse m).expirationTime with _ | te
  · rw [if_neg (by simp)]
    rcases hB : (parse m).notBefore with _ | tb
    · rw [if_neg (by simp)]
      refine ⟨⟨fun h => Or.inr (Or.inr (tailChar.1.mp h)), ?_⟩, tailChar.2⟩
      rintro ((h | h) | (⟨t, ht, hlt⟩ | ⟨t, ht, hlt⟩) | hno)
      · exact Bool.noConfusion h
      · exact Bool.noConfusion h
      · exact Option.noConfusion ht
      · exact Option.noConfusion ht
      · exact tailChar.1.mpr hno
    · by_cases htb : now < tb
      · rw [if_pos (by simpa using htb)]
        exact ⟨iff_of_true rfl (Or.inr (Or.inl (Or.inr ⟨tb, rfl, htb⟩))),
          fun w n h => Option.noConfusion h⟩
      · rw [if_neg (by simpa using htb)]
        refine ⟨⟨fun h => Or.inr (Or.inr (tailChar.1.mp h)), ?_⟩, tailChar.2⟩
        rintro ((h | h) | (⟨t, ht, hlt⟩ | ⟨t, ht, hlt⟩) | hno)
        · exact Bool.noConfusion h
        · exact Bool.noConfusion h
        · exact Option.noConfusion ht
        · rw [Option.some.injEq] at ht
          subst ht
          exact (htb hlt).elim
        · exact tailChar.1.mpr hno
  · by_cases hte : te < now
    · rw [if_pos (by simpa using hte)]
      exact ⟨iff_of_true rfl (Or.inr (Or.inl (Or.inl ⟨te, rfl, hte⟩))),
        fun w n h => Option.noConfusion h⟩
    · rw [if_neg (by simpa using hte)]
      rcases hB : (parse m).notBefore with _ | tb
      · rw [if_neg (by simp)]
        refine ⟨⟨fun h => Or.inr (Or.inr (tailChar.1.mp h)), ?_⟩, tailChar.2⟩
        rintro ((h | h) | (⟨t, ht, hlt⟩ | ⟨t, ht, hlt⟩) | hno)
        · exact Bool.noConfusion h
        · exact Bool.noConfusion h
        · rw [Option.some.injEq] at ht
          subst ht
          exact (hte hlt).elim
        · exact Option.noConfusion ht
        · exact tailChar.1.mpr hno
      · by_cases htb : now < tb
        · rw [if_pos (by simpa using htb)]
          exact ⟨iff_of_true rfl (Or.inr (Or.inl (Or.inr ⟨tb, rfl, htb⟩))),
            fun w n h => Option.noConfusion h⟩
        · rw [if_neg (by simpa using htb)]
          refine ⟨⟨fun h => Or.inr (Or.inr (tailChar.1.mp h)), ?_⟩, tailChar.2⟩
          rintro ((h | h) | (⟨t, ht, hlt⟩ | ⟨t, ht, hlt⟩) | hno)
          · exact Bool.noConfusion h
          · exact Bool.noConfusion h
          · rw [Option.some.injEq] at ht
            subst ht
            exact (hte hlt).elim
          · rw [Option.some.injEq] at ht
            subst ht
            exact (htb hlt).elim
          · exact tailChar.1.mpr hno

def c6wParse : String → SiweParsed := fun _ => ⟨some "0xAb", some "17", none, none⟩
def c6wRecover : String → String → Option String := fun _ _ => some "0xAB"

/-- Witness: a concrete successful verification returns the lowercased
recovered wallet and the nonce (derived through the characterization). -/
theorem c6_verifySIWE_witness :
    ∃ r, c6wRecover "m" "s" = some r ∧ "0xab" = jsToLower r ∧
      (c6wParse "m").nonce = some "17" ∧ "17" ≠ "" :=
  (c6_verifySIWE_characterization c6wParse c6wRecover 0 "m" "s").2 "0xab" "17" rfl

/-! ## C8 — Merkle root: empty value and permutation invariance -/

/-- C8: `getMerkleRoot` of the empty assignment list is the designated empty
value (`''`, modelled as `none`), and the root is invariant under permutation
of the assignment list, for every leaf-hash and pair-hash function: the
`StandardMerkleTree` construction sorts the leaf hashes before building the
tree, so only the multiset of leaves matters. -/
theorem c8_root_empty_and_perm_invariant (leafH : String × String × Nat → Nat)
    (pairH : Nat → Nat → Nat) :
    getMerkleRoot leafH pairH [] = none
    ∧ ∀ l₁ l₂ : List Assignment, l₁.Perm l₂ →
        getMerkleRoot leafH pairH l₁ = getMerkleRoot leafH pairH l₂ := by
  refine ⟨rfl, fun l₁ l₂ hperm => ?_⟩
  have hlen : l₁.length = l₂.length := hperm.length_eq
  haveI : IsAntisymm Nat (· ≤ ·) := ⟨fun a b h1 h2 => Nat.le_antisymm h1 h2⟩
  have hmapPerm : (l₁.map (fun a => leafH (toLeafTuple a))).Perm
      (l₂.map (fun a => leafH (toLeafTuple a))) := hperm.map _
  have hsortEq : List.insertionSort (· ≤ ·) (l₁.map (fun a => leafH (toLeafTuple a)))
      = List.insertionSort (· ≤ ·) (l₂.map (fun a => leafH (toLeafTuple a))) := by
    refine List.eq_of_perm_of_sorted (r := (· ≤ ·)) ?_ ?_ ?_
    · exact ((List.perm_insertionSort _ _).trans hmapPerm).trans
        (List.perm_insertionSort _ _).symm
    · exact List.sorted_insertionSort _ _
    · exact List.sorted_insertionSort _ _
  unfold getMerkleRoot standardTreeRoot
  rw [hlen]
  by_cases h0 : l₂.length = 0
  · rw [if_pos h0, if_pos h0]
  · rw [if_neg h0, if_neg h0, hsortEq]

def c8wLeafH : String × String × Nat → Nat := fun t => t.2.2
def c8wPairH : Nat → Nat → Nat := fun a b => 100 * a + b
def c8wA1 : Assignment := ⟨"0xA", "u/issues/1", 1⟩
def c8wA2 : Assignment := ⟨"0xB", "v/issues/2", 2⟩

/-- Witness: a concrete two-element permutation yields the same root. -/
theorem c8_root_witness :
    getMerkleRoot c8wLeafH c8wPairH [c8wA1, c8wA2]
      = getMerkleRoot c8wLeafH c8wPairH [c8wA2, c8wA1] :=
  (c8_root_empty_and_perm_invariant c8wLeafH c8wPairH).2 [c8wA1, c8wA2] [c8wA2, c8wA1]
    (by decide)

/-! ## C7 — `oraclesToAssignments` -/

/-- Two sorted lists that are permutations of each other and have no duplicate
keys are equal (sorting by a duplicate-free key determines the list). -/
theorem sorted_nodupkeys_perm_eq {α : Type} (key : α → Nat) :
    ∀ (l₁ l₂ : List α), l₁.Perm l₂ →
      l₁.Sorted (fun a b => key a ≤ key b) → l₂.Sorted (fun a b => key a ≤ key b) →
      (l₁.map key).Nodup → l₁ = l₂ := by
  intro l₁
  induction l₁ with
  | nil =>
    intro l₂ hp _ _ _
    exact (hp.symm.eq_nil).symm
  | cons a t₁ ih =>
    intro l₂ hp hs₁ hs₂ hnd
    cases l₂ with
    | nil => exact absurd hp.eq_nil (by simp)
    | cons b t₂ =>
      have hbmem : b ∈ a :: t₁ := hp.mem_iff.mpr (List.mem_cons_self b t₂)
      have hamem : a ∈ b :: t₂ := hp.mem_iff.mp (List.mem_cons_self a t₁)
      have hab : key a ≤ key b := by
        rcases List.mem_cons.mp hbmem with h | h
        · rw [h]
        · exact List.rel_of_sorted_cons hs₁ b h
      have hba : key b ≤ key a := by
        rcases List.mem_cons.mp hamem with h | h
        · rw [h]
        · exact List.rel_of_sorted_cons hs₂ a h
      have hk : key a = key b := Nat.le_antisymm hab hba
      have hae : a = b := by
        rcases List.mem_cons.mp hbmem with h | h
        · exact h.symm
        · exfalso
          have : key b ∈ t₁.map key := List.mem_map_of_mem key h
          rw [List.map_cons, List.nodup_cons] at hnd
          exact hnd.1 (hk ▸ this)
      subst hae
      have htail := ih t₂ (hp.cons_inv) (List.Sorted.of_cons hs₁)
        (List.Sorted.of_cons hs₂) (by rw [List.map_cons, List.nodup_cons] at hnd; exact hnd.2)
      rw [htail]

def c7cRec1 : OracleRecord :=
  ⟨1, "X", some "https://github.com/a/b/issues/3", "0xa", some "0xb1", true, false, none⟩
def c7cRec2 : OracleRecord :=
  ⟨2, "Y", some "https://github.com/c/d/issues/3", "0xa", some "0xb2", true, false, none⟩

/-- Counterexample to C7 as frozen: (i) the sequence number comes from the first
`/issues/<digits>` segment, not from a trailing `/<integer>` — on
`…/issues/5/comments/7` the code extracts `5` while the trailing integer is `7`;
(ii) with two records sharing sequence number `3`, the two orderings of the same
input set produce different output lists, so the output is not independent of
input order. -/
theorem c7_counterexample :
    extractIssueNumber "https://github.com/a/b/issues/5/comments/7" = some 5
    ∧ extractTrailingInt "https://github.com/a/b/issues/5/comments/7" = some 7
    ∧ ([c7cRec1, c7cRec2] : List OracleRecord).Perm [c7cRec2, c7cRec1]
    ∧ oraclesToAssignments [c7cRec1, c7cRec2] ≠ oraclesToAssignments [c7cRec2, c7cRec1] := by
  refine ⟨by decide, by decide, by decide, by decide⟩

/-- C7 amended: `oraclesToAssignments` keeps exactly the records with truthy
bot wallet and birth identifier whose extracted sequence number (first
`/issues/<digits>` segment of the birth identifier) is positive, sorted
ascending by sequence number with ties kept in input order; permuting the
input permutes the output, and when the sequence numbers are distinct the
output is identical for any input ordering. -/
theorem c7_assignments_characterization (oracles : List OracleRecord) :
    (oraclesToAssignments oracles).Sorted (fun a b => a.issue ≤ b.issue)
    ∧ (∀ a, a ∈ oraclesToAssignments oracles ↔
        ∃ o ∈ oracles, (optTruthy o.bot_wallet && optTruthy o.birth_issue) = true
          ∧ a = oracleToAssignment o ∧ 0 < a.issue)
    ∧ (∀ l₂, oracles.Perm l₂ →
        (oraclesToAssignments oracles).Perm (oraclesToAssignments l₂))
    ∧ (∀ l₂, oracles.Perm l₂ →
        ((oraclesToAssignments oracles).map (fun a => a.issue)).Nodup →
        oraclesToAssignments oracles = oraclesToAssignments l₂) := by
  haveI : IsTotal Assignment (fun a b => a.issue ≤ b.issue) :=
    ⟨fun a b => Nat.le_total a.issue b.issue⟩
  haveI : IsTrans Assignment (fun a b => a.issue ≤ b.issue) :=
    ⟨fun _ _ _ h1 h2 => Nat.le_trans h1 h2⟩
  have hsorted : ∀ l : List OracleRecord,
      (oraclesToAssignments l).Sorted (fun a b => a.issue ≤ b.issue) := by
    intro l
    exact List.sorted_insertionSort _ _
  have hperm : ∀ l₂ : List OracleRecord, oracles.Perm l₂ →
      (oraclesToAssignments oracles).Perm (oraclesToAssignments l₂) := by
    intro l₂ hp
    unfold oraclesToAssignments
    refine ((List.perm_insertionSort _ _).trans ?_).trans
      (List.perm_insertionSort _ _).symm
    exact ((hp.filter _).map _).filter _
  refine ⟨hsorted oracles, ?_, hperm, ?_⟩
  · intro a
    unfold oraclesToAssignments
    rw [(List.perm_insertionSort _ _).mem_iff, List.mem_filter, List.mem_map]
    constructor
    · rintro ⟨⟨o, ho, rfl⟩, hpos⟩
      exact ⟨o, (List.mem_filter.mp ho).1, (List.mem_filter.mp ho).2,
        rfl, by simpa using hpos⟩
    · rintro ⟨o, ho, hflt, rfl, hpos⟩
      exact ⟨⟨o, List.mem_filter.mpr ⟨ho, hflt⟩, rfl⟩, by simpa using hpos⟩
  · intro l₂ hp hnd
    exact sorted_nodupkeys_perm_eq (fun a => a.issue) _ _
      (hperm l₂ hp) (hsorted oracles) (hsorted l₂) hnd

def c7wRec1 : OracleRecord :=
  ⟨1, "X", some "https://github.com/a/b/issues/4", "0xa", some "0xb1", true, false, none⟩
def c7wRec2 : OracleRecord :=
  ⟨2, "Y", some "https://github.com/c/d/issues/9", "0xa", some "0xb2", true, false, none⟩

/-- Witness: at a concrete permuted pair of records with distinct sequence
numbers the outputs coincide. -/
theorem c7_assignments_witness :
    oraclesToAssignments [c7wRec1, c7wRec2] = oraclesToAssignments [c7wRec2, c7wRec1] :=
  (c7_assignments_characterization [c7wRec1, c7wRec2]).2.2.2
    [c7wRec2, c7wRec1] (by decide) (by decide)

/-! ## C9 — the token-signing secret is the hard-coded module constant -/

/-- C9: `DEFAULT_SALT` is the hard-coded public literal, and every session
token a success of the sign-in route (part_019) or the claim route (part_022)
returns is `createJWT` applied with exactly `DEFAULT_SALT` — the routes pass
the constant explicitly, and no configured environment secret enters either
route model. -/
theorem c9_default_salt_everywhere :
    DEFAULT_SALT = "oracle-universe-dev-salt-change-in-production"
    ∧ (∀ parse recover roundData enc mac now st m s c tok w,
        (humansVerifyHandler19 parse recover roundData enc mac now st m s).1
          = .success c tok w →
        tok = createJWT enc mac [("sub", .jstr w), ("type", .jstr "human")] DEFAULT_SALT now)
    ∧ (∀ ctx roundData parse recover enc mac now st tok u nm,
        (verifyIdentityHandler22 ctx roundData parse recover enc mac now st).1
          = .success tok u nm →
        ∃ w, tok = createJWT enc mac [("sub", .jstr w), ("type", .jstr "human")]
          DEFAULT_SALT now) := by
  refine ⟨rfl, ?_, ?_⟩
  · intro parse recover roundData enc mac now st m s c tok w h
    rcases hchk : signin19Checks parse recover roundData now m s with e | wallet
    · rw [humansVerifyHandler19_error enc mac st hchk] at h
      simp at h
    · rw [humansVerifyHandler19_ok enc mac st hchk] at h
      rcases hguard : (st.oracles.filter
          (fun o => o.bot_wallet == some wallet)).take 1 with _ | ⟨o, rest⟩
      · rcases hfind : (st.humans.filter
            (fun hh => hh.wallet_address == wallet)).take 1 with _ | ⟨hh, hrest⟩
        · rw [signin19Store_create enc mac now hguard hfind] at h
          injection h with h1 h2 h3
          subst h3
          exact h2.symm
        · rw [signin19Store_found enc mac now hguard hfind] at h
          injection h with h1 h2 h3
          subst h3
          exact h2.symm
      · rw [signin19Store_guard enc mac now hguard] at h
        simp at h
  · intro ctx roundData parse recover enc mac now st tok u nm h
    rcases hpre : identityPreChecks ctx roundData now with e | pre
    · rw [verifyIdentityHandler22_preErr parse recover enc mac st hpre] at h
      simp at h
    · rw [verifyIdentityHandler22_ok parse recover enc mac st hpre] at h
      rcases hdup : dupBotWalletCheck st pre.botWallet pre.resolvedBirthIssue with _ | ex
      · rw [identityStore22_nodup ctx parse recover enc mac now hdup] at h
        rcases hwv : computeWalletVerified parse recover pre.walletAddress
            ctx.siweMessage ctx.siweSignature with e | wv
        · rw [identityFinish22_throw enc mac now hwv] at h
          simp at h
        · rw [identityFinish22_ok enc mac now hwv] at h
          injection h with h1 h2 h3
          exact ⟨pre.walletAddress, h1.symm⟩
      · rw [identityStore22_dup ctx parse recover enc mac now hdup] at h
        simp at h

def c9wParse : String → SiweParsed := fun _ => ⟨some "0xA", some "1", none, none⟩
def c9wRecover : String → String → Option String := fun _ _ => some "0xA"
def c9wRound : String → Option Int := fun _ => some 0
def c9wEnc : JObj → String := fun _ => "E"
def c9wMac : String → String → String := fun _ _ => "M"

/-- Witness: a concrete successful sign-in issues exactly the
`DEFAULT_SALT`-signed token. -/
theorem c9_default_salt_witness :
    (humansVerifyHandler19 c9wParse c9wRecover c9wRound c9wEnc c9wMac 0 ⟨[], []⟩ "m" "s").1
      = .success true (createJWT c9wEnc c9wMac
          [("sub", .jstr "0xa"), ("type", .jstr "human")] DEFAULT_SALT 0) "0xa"
    ∧ createJWT c9wEnc c9wMac [("sub", .jstr "0xa"), ("type", .jstr "human")] DEFAULT_SALT 0
      = createJWT c9wEnc c9wMac [("sub", .jstr "0xa"), ("type", .jstr "human")] DEFAULT_SALT 0 :=
  ⟨by decide, c9_default_salt_everywhere.2.1 c9wParse c9wRecover c9wRound c9wEnc c9wMac
    0 ⟨[], []⟩ "m" "s" true _ "0xa" (by decide)⟩

/-! ## C2 — bot-signing wallet cannot sign in as a human (part_019) -/

/-- A verified wallet out of the checks phase is always the lowercased claimed
address (the recovered signer was compared against it case-insensitively). -/
theorem signin19Checks_ok_inv {parse : String → SiweParsed}
    {recover : String → String → Option String} {roundData : String → Option Int}
    {now : Int} {m s wallet : String}
    (h : signin19Checks parse recover roundData now m s = .ok wallet) :
    wallet = jsToLower ((parse m).address.getD "") := by
  unfold signin19Checks at h
  split at h
  · exact absurd h (by simp)
  · split at h
    · exact absurd h (by simp)
    · split at h
      · exact absurd h (by simp)
      · rename_i recovered
        split at h
        · exact absurd h (by simp)
        · rename_i hcmp
          split at h
          · exact absurd h (by simp)
          · split at h
            · exact absurd h (by simp)
            · injection h with h'
              rw [← h']
              simpa using hcmp

/-- The checks phase succeeds with the lowercased recovered wallet when the
fields are present, the signature recovers to the claimed address, and the
round is fresh. -/
theorem signin19Checks_ok_of {parse : String → SiweParsed}
    {recover : String → String → Option String} {roundData : String → Option Int}
    {now : Int} {m s r : String} {ts : Int}
    (hm : strTruthy m = true) (hs : strTruthy s = true)
    (hA : optTruthy (parse m).address = true) (hN : optTruthy (parse m).nonce = true)
    (hrec : recover m s = some r)
    (hcmp : jsToLower r = jsToLower ((parse m).address.getD ""))
    (hts : roundData ((parse m).nonce.getD "") = some ts)
    (hfresh : freshRejectSiwe19 now ts = false) :
    signin19Checks parse recover roundData now m s = .ok (jsToLower r) := by
  unfold signin19Checks
  rw [if_neg (by simp [hm, hs])]
  rw [if_neg (by simp [hA, hN])]
  rw [hrec]
  simp [hcmp, hts, hfresh]

/-- C2 amended: when the claimed wallet is some BotIdentity's bot-signing wallet,
the sign-in request never succeeds and never mutates the store; and when its
message parses, its signature is valid for the claimed address and its
proof-of-time round is fresh, the rejection is exactly `WalletRoleConflict`.
(With an invalid signature the request is rejected earlier, with the
signature-mismatch error — see the counterexample for the frozen claim.) -/
theorem c2_bot_wallet_guard (parse : String → SiweParsed)
    (recover : String → String → Option String) (roundData : String → Option Int)
    (enc : JObj → String) (mac : String → String → String) (now : Int)
    (st : Store) (m s : String)
    (hbot : ∃ o ∈ st.oracles, o.bot_wallet = some (jsToLower ((parse m).address.getD ""))) :
    ((humansVerifyHandler19 parse recover roundData enc mac now st m s).2 = st
      ∧ ∀ c tok w, (humansVerifyHandler19 parse recover roundData enc mac now st m s).1
          ≠ .success c tok w)
    ∧ (∀ r ts, strTruthy m = true → strTruthy s = true →
        optTruthy (parse m).address = true → optTruthy (parse m).nonce = true →
        recover m s = some r →
        jsToLower r = jsToLower ((parse m).address.getD "") →
        roundData ((parse m).nonce.getD "") = some ts →
        freshRejectSiwe19 now ts = false →
        ∃ nm, humansVerifyHandler19 parse recover roundData enc mac now st m s
          = (.walletRoleConflict nm, st)) := by
  constructor
  · rcases hchk : signin19Checks parse recover roundData now m s with e | wallet
    · rw [humansVerifyHandler19_error enc mac st hchk]
      exact ⟨rfl, by simp⟩
    · have hw := signin19Checks_ok_inv hchk
      rw [humansVerifyHandler19_ok enc mac st hchk]
      obtain ⟨o, ho, hbw⟩ := hbot
      have hmem : o ∈ st.oracles.filter (fun x => x.bot_wallet == some wallet) := by
        rw [List.mem_filter]
        exact ⟨ho, by rw [hbw, hw]; simp⟩
      rcases hfl : st.oracles.filter (fun x => x.bot_wallet == some wallet) with _ | ⟨x, xs⟩
      · rw [hfl] at hmem
        cases hmem
      · have htake : (st.oracles.filter (fun x => x.bot_wallet == some wallet)).take 1
            = [x] := by rw [hfl]; rfl
        rw [signin19Store_guard enc mac now htake]
        exact ⟨rfl, by simp⟩
  · intro r ts hm hs hA hN hrec hcmp hts hfresh
    have hchk := signin19Checks_ok_of hm hs hA hN hrec hcmp hts hfresh
    rw [humansVerifyHandler19_ok enc mac st hchk]
    obtain ⟨o, ho, hbw⟩ := hbot
    have hmem : o ∈ st.oracles.filter (fun x => x.bot_wallet == some (jsToLower r)) := by
      rw [List.mem_filter]
      refine ⟨ho, ?_⟩
      rw [hbw, hcmp]
      simp
    rcases hfl : st.oracles.filter (fun x => x.bot_wallet == some (jsToLower r)) with _ | ⟨x, xs⟩
    · rw [hfl] at hmem
      cases hmem
    · have htake : (st.oracles.filter (fun x => x.bot_wallet == some (jsToLower r))).take 1
          = [x] := by rw [hfl]; rfl
      rw [signin19Store_guard enc mac now htake]
      exact ⟨x.name, rfl⟩

def c2Parse : String → SiweParsed := fun _ => ⟨some "0xB", some "1", none, none⟩
def c2Round : String → Option Int := fun _ => some 0
def c2Enc : JObj → String := fun _ => "E"
def c2Mac : String → String → String := fun _ _ => "M"
def c2Oracle : OracleRecord :=
  ⟨1, "Z", some "https://github.com/a/b/issues/1", "0xc", some "0xb", true, false, none⟩
def c2Store : Store := ⟨[], [c2Oracle]⟩
def c2GoodRecover : String → String → Option String := fun _ _ => some "0xB"
def c2BadRecover : String → String → Option String := fun _ _ => some "0xEE"

/-- Witness: with a valid signature over a bot-registered wallet, the rejection
is `WalletRoleConflict` and the store is untouched. -/
theorem c2_bot_wallet_guard_witness :
    ∃ nm, humansVerifyHandler19 c2Parse c2GoodRecover c2Round c2Enc c2Mac 0 c2Store "m" "s"
      = (.walletRoleConflict nm, c2Store) :=
  (c2_bot_wallet_guard c2Parse c2GoodRecover c2Round c2Enc c2Mac 0 c2Store "m" "s"
    ⟨c2Oracle, by decide, by decide⟩).2 "0xB" 0
    (by decide) (by decide) (by decide) (by decide) rfl (by decide) rfl (by decide)

/-- Counterexample to C2 as frozen: the claimed wallet `0xb` is a registered
bot-signing wallet, but with an invalid signature the rejection is the
signature-mismatch error, not `WalletRoleConflict`. -/
theorem c2_counterexample :
    (∃ o ∈ c2Store.oracles, o.bot_wallet = some "0xb")
    ∧ humansVerifyHandler19 c2Parse c2BadRecover c2Round c2Enc c2Mac 0 c2Store "m" "s"
        = (.err .sigMismatch, c2Store) := by
  exact ⟨⟨c2Oracle, by decide, by decide⟩, by decide⟩

/-! ## C3 — freshness checks across the three callers -/

/-- The part_019 checks phase rejects with `NonceExpired` when the round's
timestamp age exceeds 3900 seconds. -/
theorem signin19Checks_expired_of {parse : String → SiweParsed}
    {recover : String → String → Option String} {roundData : String → Option Int}
    {now : Int} {m s r : String} {ts : Int}
    (hm : strTruthy m = true) (hs : strTruthy s = true)
    (hA : optTruthy (parse m).address = true) (hN : optTruthy (parse m).nonce = true)
    (hrec : recover m s = some r)
    (hcmp : jsToLower r = jsToLower ((parse m).address.getD ""))
    (hts : roundData ((parse m).nonce.getD "") = some ts)
    (hfresh : freshRejectSiwe19 now ts = true) :
    signin19Checks parse recover roundData now m s = .error (.nonceExpired (now - ts)) := by
  unfold signin19Checks
  rw [if_neg (by simp [hm, hs])]
  rw [if_neg (by simp [hA, hN])]
  rw [hrec]
  simp [hcmp, hts, hfresh]

/-- The store phase of part_019 never produces a pre-store error. -/
theorem signin19Store_ne_err (enc : JObj → String) (mac : String → String → String)
    (now : Int) (st : Store) (w : String) (e : SigninErr) :
    (signin19Store enc mac now st w).1 ≠ .err e := by
  unfold signin19Store
  split
  · simp
  · split <;> simp

/-- The siwe.ts checks phase succeeds when the round distance is within 10. -/
theorem signinTsChecks_ok_of {parse : String → SiweParsed}
    {recover : String → String → Option String} {latestRound : Option Int}
    {m s r : String} {cur ni : Int}
    (hm : strTruthy m = true) (hs : strTruthy s = true)
    (hA : optTruthy (parse m).address = true) (hN : optTruthy (parse m).nonce = true)
    (hrec : recover m s = some r)
    (hcmp : jsToLower r = jsToLower ((parse m).address.getD ""))
    (hlr : latestRound = some cur) (hni : jsBigInt ((parse m).nonce.getD "") = some ni)
    (hfresh : freshRejectSiweTs cur ni = false) :
    signinTsChecks parse recover latestRound m s = .ok (jsToLower r) := by
  unfold signinTsChecks
  rw [if_neg (by simp [hm, hs])]
  rw [if_neg (by simp [hA, hN])]
  rw [hrec]
  simp [hcmp, hlr, hni, hfresh]

/-- The siwe.ts checks phase rejects with `NonceExpired` when the nonce round is
more than 10 behind the latest round. -/
theorem signinTsChecks_expired_of {parse : String → SiweParsed}
    {recover : String → String → Option String} {latestRound : Option Int}
    {m s r : String} {cur ni : Int}
    (hm : strTruthy m = true) (hs : strTruthy s = true)
    (hA : optTruthy (parse m).address = true) (hN : optTruthy (parse m).nonce = true)
    (hrec : recover m s = some r)
    (hcmp : jsToLower r = jsToLower ((parse m).address.getD ""))
    (hlr : latestRound = some cur) (hni : jsBigInt ((parse m).nonce.getD "") = some ni)
    (hfresh : freshRejectSiweTs cur ni = true) :
    signinTsChecks parse recover latestRound m s = .error (.nonceExpired (cur - ni)) := by
  unfold signinTsChecks
  rw [if_neg (by simp [hm, hs])]
  rw [if_neg (by simp [hA, hN])]
  rw [hrec]
  simp [hcmp, hlr, hni, hfresh]

theorem humansVerifyHandlerTs_error {parse recover latestRound message signature e}
    (enc : JObj → String) (mac : String → String → String) (now : Int) (st : Store)
    (h : signinTsChecks parse recover latestRound message signature = .error e) :
    humansVerifyHandlerTs parse recover latestRound enc mac now st message signature
      = (.err e, st) := by
  unfold humansVerifyHandlerTs
  rw [h]

/-- After a successful checks phase the siwe.ts handler never returns a
pre-store error. -/
theorem humansVerifyHandlerTs_ok_ne_err {parse recover latestRound message signature w}
    (enc : JObj → String) (mac : String → String → String) (now : Int) (st : Store)
    (h : signinTsChecks parse recover latestRound message signature = .ok w)
    (e : SigninErr) :
    (humansVerifyHandlerTs parse recover latestRound enc mac now st message signature).1
      ≠ .err e := by
  unfold humansVerifyHandlerTs
  rw [h]
  split
  · rename_i x e' heq
    exact absurd heq (by simp)
  · rename_i x w' heq
    split <;> simp

/-- C3 amended: each freshness-enforcing caller fails closed with
`NonceExpired` exactly at ITS OWN bound — there is no single canonical bound.
The claim-verification flow (part_022) uses the round-timestamp age with bound
3600 s; the sign-in flow (part_019) uses the round-timestamp age with bound
3900 s; and the alternate sign-in route (src/routes/auth/siwe.ts) uses
round-id distance with bound 10 rounds. -/
theorem c3_freshness_per_caller :
    (∀ (parse : String → SiweParsed) (recover : String → String → Option String)
        (roundData : String → Option Int) (enc : JObj → String)
        (mac : String → String → String) (now : Int) (st : Store) (m s r : String) (ts : Int),
      strTruthy m = true → strTruthy s = true →
      optTruthy (parse m).address = true → optTruthy (parse m).nonce = true →
      recover m s = some r → jsToLower r = jsToLower ((parse m).address.getD "") →
      roundData ((parse m).nonce.getD "") = some ts →
      (((humansVerifyHandler19 parse recover roundData enc mac now st m s).1
          = .err (.nonceExpired (now - ts))) ↔ now - ts > 3900))
    ∧ (∀ (ctx : ClaimCtx) (roundData : String → Option Int) (now ts : Int),
      optTruthy ctx.walletFromBody = true →
      optTruthy (orTruthy ctx.birthIssueReq ctx.birthIssueFromBody) = true →
      optTruthy ctx.bodySignature = false →
      optTruthy ctx.chainlinkRound = true →
      roundData (ctx.chainlinkRound.getD "") = some ts →
      ((identityPreChecks ctx roundData now = .error (.nonceExpired (now - ts)))
        ↔ now - ts > 3600))
    ∧ (∀ (parse : String → SiweParsed) (recover : String → String → Option String)
        (latestRound : Option Int) (enc : JObj → String)
        (mac : String → String → String) (now : Int) (st : Store) (m s r : String)
        (cur ni : Int),
      strTruthy m = true → strTruthy s = true →
      optTruthy (parse m).address = true → optTruthy (parse m).nonce = true →
      recover m s = some r → jsToLower r = jsToLower ((parse m).address.getD "") →
      latestRound = some cur → jsBigInt ((parse m).nonce.getD "") = some ni →
      (((humansVerifyHandlerTs parse recover latestRound enc mac now st m s).1
          = .err (.nonceExpired (cur - ni))) ↔ cur - ni > 10)) := by
  refine ⟨?_, ?_, ?_⟩
  · intro parse recover roundData enc mac now st m s r ts hm hs hA hN hrec hcmp hts
    by_cases hfr : freshRejectSiwe19 now ts = true
    · have hb : now - ts > 3900 := by simpa [freshRejectSiwe19] using hfr
      refine iff_of_true ?_ hb
      rw [humansVerifyHandler19_error enc mac st
        (signin19Checks_expired_of hm hs hA hN hrec hcmp hts hfr)]
    · have hfr' : freshRejectSiwe19 now ts = false := by simpa using hfr
      have hb : ¬ now - ts > 3900 := by simpa [freshRejectSiwe19] using hfr
      refine iff_of_false ?_ hb
      rw [humansVerifyHandler19_ok enc mac st
        (signin19Checks_ok_of hm hs hA hN hrec hcmp hts hfr')]
      exact signin19Store_ne_err enc mac now st (jsToLower r) _
  · intro ctx roundData now ts hw hb hsig hcr hts
    by_cases hfr : freshRejectIdentity22 now ts = true
    · have hgt : now - ts > 3600 := by simpa [freshRejectIdentity22] using hfr
      refine iff_of_true ?_ hgt
      unfold identityPreChecks
      simp [hw, hb, hsig, hcr, hts, hfr]
    · have hfr' : freshRejectIdentity22 now ts = false := by simpa using hfr
      have hgt : ¬ now - ts > 3600 := by simpa [freshRejectIdentity22] using hfr
      refine iff_of_false ?_ hgt
      intro hres
      unfold identityPreChecks at hres
      simp [hw, hb, hsig, hcr, hts, hfr'] at hres
      split at hres <;> simp_all
  · intro parse recover latestRound enc mac now st m s r cur ni hm hs hA hN hrec hcmp hlr hni
    by_cases hfr : freshRejectSiweTs cur ni = true
    · have hgt : cur - ni > 10 := by simpa [freshRejectSiweTs] using hfr
      refine iff_of_true ?_ hgt
      rw [humansVerifyHandlerTs_error enc mac now st
        (signinTsChecks_expired_of hm hs hA hN hrec hcmp hlr hni hfr)]
    · have hfr' : freshRejectSiweTs cur ni = false := by simpa using hfr
      have hgt : ¬ cur - ni > 10 := by simpa [freshRejectSiweTs] using hfr
      refine iff_of_false ?_ hgt
      exact humansVerifyHandlerTs_ok_ne_err enc mac now st
        (signinTsChecks_ok_of hm hs hA hN hrec hcmp hlr hni hfr') _

def c3Parse : String → SiweParsed := fun _ => ⟨some "0xA", some "0", none, none⟩
def c3Recover : String → String → Option String := fun _ _ => some "0xA"
def c3Round : String → Option Int := fun _ => some 0
def c3Enc : JObj → String := fun _ => "E"
def c3Mac : String → String → String := fun _ _ => "M"
def c3Ctx : ClaimCtx :=
  { verificationIssueUrl := "https://github.com/a/b/issues/2"
    githubUsername := some "nat"
    walletFromBody := some "0xA"
    birthIssueReq := some "https://github.com/a/b/issues/1"
    birthIssueFromBody := none
    oracleNameReq := some "N"
    oracleNameFromBody := none
    botWalletRaw := none
    bodySignature := none
    embeddedRecovered := none
    chainlinkRound := some "7"
    birthAuthor := some "nat"
    birthTitleName := none
    siweMessage := none
    siweSignature := none }

/-- Witness: at age 4000 s the claim flow's pre-checks reject with
`NonceExpired`, by the 3600 s conjunct of the per-caller characterization. -/
theorem c3_freshness_witness :
    identityPreChecks c3Ctx c3Round 4000 = .error (.nonceExpired 4000) :=
  (c3_freshness_per_caller.2.1 c3Ctx c3Round 4000 0
    (by decide) (by decide) (by decide) (by decide) rfl).mpr (by decide)

/-- Counterexample to C3 as frozen: at round-timestamp age 3700 s — beyond the
claimed canonical 3600 s bound — the part_019 sign-in flow does NOT fail with
`NonceExpired` but succeeds and issues a token (its bound is 3900 s); and the
src/routes/auth/siwe.ts sign-in route rejects by round-id distance (11 rounds),
not by timestamp age. -/
theorem c3_counterexample :
    ((3700 : Int) - 0 > 3600)
    ∧ (humansVerifyHandler19 c3Parse c3Recover c3Round c3Enc c3Mac 3700 ⟨[], []⟩ "m" "s").1
        = .success true (createJWT c3Enc c3Mac
            [("sub", .jstr "0xa"), ("type", .jstr "human")] DEFAULT_SALT 3700) "0xa"
    ∧ (humansVerifyHandlerTs c3Parse c3Recover (some 11) c3Enc c3Mac 0 ⟨[], []⟩ "m" "s").1
        = .err (.nonceExpired 11) := by
  exact ⟨by decide, by decide, by decide⟩

/-! ## C5 — duplicate bot-signing wallet is rejected before any mutation -/

/-- C5: when the extracted bot-signing wallet is already assigned to a
BotIdentity whose birth identifier differs from the claimed one, the request
fails with `DuplicateBotWallet` and the store is returned unchanged — the check
precedes both upserts.  The page-size-10 store read covers the matching records
because bot wallets are unique across BotIdentities (the stated invariant,
taken as the `huniq` hypothesis). -/
theorem c5_duplicate_bot_wallet (ctx : ClaimCtx) (roundData : String → Option Int)
    (parse : String → SiweParsed) (recover : String → String → Option String)
    (enc : JObj → String) (mac : String → String → String) (now : Int)
    (st : Store) (pre : PreOut) (bw : String)
    (hpre : identityPreChecks ctx roundData now = .ok pre)
    (hbw : pre.botWallet = some bw) (hbw' : bw ≠ "")
    (huniq : (st.oracles.filter (fun o => o.bot_wallet == some bw)).length ≤ 1)
    (hex : ∃ o ∈ st.oracles, o.bot_wallet = some bw
      ∧ o.birth_issue ≠ some pre.resolvedBirthIssue) :
    ∃ nm, verifyIdentityHandler22 ctx roundData parse recover enc mac now st
      = (.err (.duplicateBotWallet nm), st) := by
  rw [verifyIdentityHandler22_ok parse recover enc mac st hpre]
  obtain ⟨o, ho, hob, hbirth⟩ := hex
  have hmem : o ∈ st.oracles.filter (fun x => x.bot_wallet == some bw) := by
    rw [List.mem_filter]
    exact ⟨ho, by rw [hob]; simp⟩
  have htake : (st.oracles.filter (fun x => x.bot_wallet == some bw)).take 10
      = st.oracles.filter (fun x => x.bot_wallet == some bw) :=
    List.take_of_length_le (le_trans huniq (by norm_num))
  have hsome : (((st.oracles.filter (fun x => x.bot_wallet == some bw)).take 10).find?
      (fun x => !(x.birth_issue == some pre.resolvedBirthIssue))).isSome := by
    rw [htake, List.find?_isSome]
    exact ⟨o, hmem, by simp [hbirth]⟩
  obtain ⟨ex, hfind⟩ := Option.isSome_iff_exists.mp hsome
  have hdup : dupBotWalletCheck st pre.botWallet pre.resolvedBirthIssue = some ex := by
    have h1 : (if (bw == "") = true then (none : Option OracleRecord)
        else ((st.oracles.filter (fun x => x.bot_wallet == some bw)).take 10).find?
          (fun x => !(x.birth_issue == some pre.resolvedBirthIssue))) = some ex := by
      rw [if_neg (by simp [hbw'])]
      exact hfind
    unfold dupBotWalletCheck
    rw [hbw]
    exact h1
  rw [identityStore22_dup ctx parse recover enc mac now hdup]
  exact ⟨ex.name, rfl⟩

def c5Round : String → Option Int := fun _ => some 0
def c5Ctx : ClaimCtx :=
  { verificationIssueUrl := "https://github.com/a/b/issues/2"
    githubUsername := some "nat"
    walletFromBody := some "0xA"
    birthIssueReq := some "https://github.com/a/b/issues/1"
    birthIssueFromBody := none
    oracleNameReq := some "N"
    oracleNameFromBody := none
    botWalletRaw := some "0xB"
    bodySignature := none
    embeddedRecovered := none
    chainlinkRound := some "7"
    birthAuthor := some "nat"
    birthTitleName := none
    siweMessage := none
    siweSignature := none }
def c5Oracle : OracleRecord :=
  ⟨1, "Existing", some "https://github.com/x/y/issues/9", "0xc", some "0xb", true, false, none⟩
def c5Store : Store := ⟨[], [c5Oracle]⟩
def c5Parse : String → SiweParsed := fun _ => ⟨none, none, none, none⟩
def c5Recover : String → String → Option String := fun _ _ => none
def c5Enc : JObj → String := fun _ => "E"
def c5Mac : String → String → String := fun _ _ => "M"

/-- Witness: a concrete claim whose extracted bot wallet `0xb` is already
assigned to an oracle born from a different issue is rejected with
`DuplicateBotWallet`, store untouched. -/
theorem c5_duplicate_bot_wallet_witness :
    ∃ nm, verifyIdentityHandler22 c5Ctx c5Round c5Parse c5Recover c5Enc c5Mac 0 c5Store
      = (.err (.duplicateBotWallet nm), c5Store) :=
  c5_duplicate_bot_wallet c5Ctx c5Round c5Parse c5Recover c5Enc c5Mac 0 c5Store
    { walletAddress := "0xa"
      resolvedBirthIssue := "https://github.com/a/b/issues/1"
      botWallet := some "0xb"
      finalOracleName := "N" } "0xb"
    rfl rfl (by decide) (by decide)
    ⟨c5Oracle, by decide, by decide, by decide⟩

/-! ## C1 — re-claim: guard and reassignment -/

/-- The old wallets of the re-claim, without the 200-record page cap (equal to
`reclaimOldWallets` whenever the matching humans fit in one page). -/
def oldWalletsOf (st : Store) (walletAddress u : String) : List String :=
  ((st.humans.filter (fun h => h.github_username == some u)).map
    (fun h => h.wallet_address)).filter (fun w => strTruthy w && !(w == walletAddress))

/-- C1 amended (part_022 step 8): with a verified wallet and a truthy username,
(i) if the new wallet is any BotIdentity's bot-signing wallet the whole
re-claim is skipped and the store is unchanged; (ii) otherwise no human record
changes and exactly the oracles owned by an old wallet (a truthy wallet of
another human with the same username) are reassigned to the new wallet; and
(iii) after the re-claim the request still succeeds and issues a token.
The page caps are covered by the `≤ 200` hypotheses; oracle ids are unique in
the store (`hnodup`).  The part_021 variant violates (i) — see the
counterexample. -/
theorem c1_reclaim_guarded (st : Store) (walletAddress u : String) (hu : u ≠ "")
    (hhum : (st.humans.filter (fun h => h.github_username == some u)).length ≤ 200)
    (hor : (st.oracles.filter
      (fun o => (oldWalletsOf st walletAddress u).contains o.owner_wallet)).length ≤ 200)
    (hnodup : (st.oracles.map (fun o => o.oid)).Nodup) :
    ((∃ o ∈ st.oracles, o.bot_wallet = some walletAddress) →
      reclaimStep22 st walletAddress (some u) true = st)
    ∧ ((∀ o ∈ st.oracles, o.bot_wallet ≠ some walletAddress) →
      (reclaimStep22 st walletAddress (some u) true).humans = st.humans
      ∧ (reclaimStep22 st walletAddress (some u) true).oracles
        = st.oracles.map (fun o =>
            if (oldWalletsOf st walletAddress u).contains o.owner_wallet then
              { o with owner_wallet := walletAddress }
            else o))
    ∧ (∀ ctx roundData parse recover enc mac now st0 pre wv,
        identityPreChecks ctx roundData now = .ok pre →
        dupBotWalletCheck st0 pre.botWallet pre.resolvedBirthIssue = none →
        computeWalletVerified parse recover pre.walletAddress ctx.siweMessage
          ctx.siweSignature = .ok wv →
        ∃ tok st', verifyIdentityHandler22 ctx roundData parse recover enc mac now st0
          = (.success tok ctx.githubUsername pre.finalOracleName, st')) := by
  have hrw : reclaimOldWallets st walletAddress (some u) = oldWalletsOf st walletAddress u := by
    unfold reclaimOldWallets oldWalletsOf
    rw [List.take_of_length_le hhum]
  refine ⟨?_, ?_, ?_⟩
  · rintro ⟨o, ho, hbw⟩
    unfold reclaimStep22
    rw [if_pos (by simp [optTruthy, hu])]
    have hmem : o ∈ st.oracles.filter (fun x => x.bot_wallet == some walletAddress) := by
      rw [List.mem_filter]
      exact ⟨ho, by rw [hbw]; simp⟩
    rcases hfl : st.oracles.filter (fun x => x.bot_wallet == some walletAddress)
      with _ | ⟨x, xs⟩
    · rw [hfl] at hmem
      cases hmem
    · rw [if_pos (by rw [hfl]; rfl)]
  · intro hno
    unfold reclaimStep22
    rw [if_pos (by simp [optTruthy, hu])]
    have hfl : st.oracles.filter (fun x => x.bot_wallet == some walletAddress) = [] := by
      rw [List.filter_eq_nil_iff]
      intro a ha
      simp [hno a ha]
    rw [if_neg (by rw [hfl]; decide), hrw]
    by_cases hemp : (oldWalletsOf st walletAddress u).isEmpty = true
    · rw [if_pos hemp]
      have hnil := List.isEmpty_iff.mp hemp
      refine ⟨rfl, ?_⟩
      rw [hnil]
      simp
    · rw [if_neg hemp]
      refine ⟨rfl, ?_⟩
      show st.oracles.map _ = st.oracles.map _
      refine List.map_congr_left ?_
      intro o ho
      rw [List.take_of_length_le hor]
      by_cases hc : (oldWalletsOf st walletAddress u).contains o.owner_wallet = true
      · have hany : (st.oracles.filter (fun x =>
            (oldWalletsOf st walletAddress u).contains x.owner_wallet)).any
            (fun x => x.oid == o.oid) = true :=
          List.any_eq_true.mpr ⟨o, List.mem_filter.mpr ⟨ho, hc⟩, by simp⟩
        rw [if_pos hany, if_pos hc]
      · have hany : (st.oracles.filter (fun x =>
            (oldWalletsOf st walletAddress u).contains x.owner_wallet)).any
            (fun x => x.oid == o.oid) = false := by
          rw [List.any_eq_false]
          intro x hx
          have hxmem := List.mem_filter.mp hx
          intro hoid
          have hxo : x = o := List.inj_on_of_nodup_map hnodup hxmem.1 ho
            (by simpa using hoid)
          rw [hxo] at hxmem
          exact hc hxmem.2
        rw [if_neg (by rw [hany]; decide), if_neg hc]
  · intro ctx roundData parse recover enc mac now st0 pre wv hpre hdup hwv
    rw [verifyIdentityHandler22_ok parse recover enc mac st0 hpre,
      identityStore22_nodup ctx parse recover enc mac now hdup,
      identityFinish22_ok enc mac now hwv]
    exact ⟨_, _, rfl⟩

def c1Human : HumanRecord := ⟨1, "0xa", some "nat", some "nat"⟩
def c1Oracle : OracleRecord :=
  ⟨1, "X", some "https://github.com/a/b/issues/1", "0xa", some "0xb", true, false, none⟩
def c1Store : Store := ⟨[c1Human], [c1Oracle]⟩

/-- Counterexample to C1 as frozen: in the part_021 version of the re-claim,
the new wallet `0xb` is the bot-signing wallet of oracle X, yet the re-claim is
NOT skipped — X's ownership is transferred to `0xb` anyway (there is no guard). -/
theorem c1_counterexample :
    (∃ o ∈ c1Store.oracles, o.bot_wallet = some "0xb")
    ∧ (reclaimStep21 c1Store "0xb" (some "nat") true true).oracles.map
        (fun o => o.owner_wallet) = ["0xb"]
    ∧ reclaimStep21 c1Store "0xb" (some "nat") true true ≠ c1Store := by
  exact ⟨⟨c1Oracle, by decide, by decide⟩, by decide, by decide⟩

/-- Witness: at a concrete store where the new wallet is a bot-signing wallet,
the part_022 re-claim leaves the store unchanged (guard branch), and at the
same store with a non-bot new wallet the reassignment formula applies. -/
theorem c1_reclaim_guarded_witness :
    reclaimStep22 c1Store "0xb" (some "nat") true = c1Store
    ∧ (reclaimStep22 c1Store "0xd" (some "nat") true).oracles
        = c1Store.oracles.map (fun o =>
            if (oldWalletsOf c1Store "0xd" "nat").contains o.owner_wallet then
              { o with owner_wallet := "0xd" }
            else o) := by
  constructor
  · exact (c1_reclaim_guarded c1Store "0xb" "nat" (by decide) (by decide) (by decide)
      (by decide)).1 ⟨c1Oracle, by decide, by decide⟩
  · exact ((c1_reclaim_guarded c1Store "0xd" "nat" (by decide) (by decide) (by decide)
      (by decide)).2.1 (by decide)).2
